import Mathlib

/-!
# Shallow embedding of the file-upload / validation / storage / conversion core

This development models the TypeScript backend services of the repository:

* `fileUploadService` (PNG upload pipeline) and its in-memory `FileUploadStore`;
* `pdfUploadService` (PDF upload pipeline with structure validation, virus
  scanning, single-upload gate) and its `PDFUploadStore` with a primary and an
  isolated (quarantine) partition;
* `pngConversionService` (PNG record to base64 data-URL conversion with an
  integrity check).

Modelling conventions:

* Byte buffers (`Node Buffer`) are `List Nat` of byte values.
* JavaScript `Map<string, T>` is an association list with unique keys kept as
  an operation-level invariant; `Map.delete` is modelled by `List.filter`.
* Thrown `ServiceError`s become `Except` errors carrying the error code, the
  HTTP status code and structured details; human-readable Portuguese message
  strings are elided from `ServiceError` (presentation only).
* The Express byte stream is a list of data-event chunks followed by one
  terminal event (graceful end or transport error).
* `Math.ceil((fileSize * 4) / 3)` over IEEE doubles equals the exact rational
  ceiling for every buffer size accepted by the pipelines (the quotient is
  either exactly representable or at distance about 1/3 from the nearest
  integer, far above the rounding error), so it is modelled as
  `(fileSize * 4 + 2) / 3` in `Nat`.
* The float comparison `difference <= expectedSize * 0.01` is modelled as the
  rational comparison `100 * difference ≤ expectedSize`; at every integer
  boundary (`difference` and `expectedSize` are integers) the IEEE double
  `expectedSize * 0.01` rounds to exactly `expectedSize / 100`, so the two
  comparisons agree on all integer inputs reachable here.
-/

deriving instance DecidableEq for Except

/-- Bytes of an ASCII/latin1 string: the `latin1` view used by the source maps
each byte to the character of the same code, so token containment in the
decoded string coincides with byte-level containment. -/
def strBytes (s : String) : List Nat :=
  s.toList.map Char.toNat

/-- `buffer.readUInt32BE(offset)`: big-endian 32-bit read, `none` when the
buffer is too short (Node throws `ERR_OUT_OF_RANGE`). -/
def readUInt32BE (buffer : List Nat) (offset : Nat) : Option Nat :=
  match buffer.drop offset with
  | b0 :: b1 :: b2 :: b3 :: _ => some (((b0 * 256 + b1) * 256 + b2) * 256 + b3)
  | _ => none

/-- `buffer.readUInt8(offset)`: single-byte read, `none` when out of range. -/
def readUInt8 (buffer : List Nat) (offset : Nat) : Option Nat :=
  match buffer.drop offset with
  | b :: _ => some b
  | _ => none

/-- The standard base64 alphabet. -/
def base64Alphabet : List Char :=
  "ABCDEFGHIJKLMNOPQRSTUVWXYZabcdefghijklmnopqrstuvwxyz0123456789+/".toList

/-- Character for a 6-bit value. -/
def b64Char (n : Nat) : Char :=
  base64Alphabet.getD n 'A'

/-- Base64 encoding of a byte list, processed in 3-byte groups with `=`
padding (the encoding used by `buffer.toString('base64')`). -/
def base64Groups : List Nat → List Char
  | [] => []
  | [b0] => [b64Char (b0 / 4), b64Char (b0 % 4 * 16), '=', '=']
  | [b0, b1] => [b64Char (b0 / 4), b64Char (b0 % 4 * 16 + b1 / 16), b64Char (b1 % 16 * 4), '=']
  | b0 :: b1 :: b2 :: rest =>
      b64Char (b0 / 4) :: b64Char (b0 % 4 * 16 + b1 / 16) ::
        b64Char (b1 % 16 * 4 + b2 / 64) :: b64Char (b2 % 64) :: base64Groups rest

/-- `buffer.toString('base64')`. -/
def base64Encode (bs : List Nat) : String :=
  String.mk (base64Groups bs)

/-- Hexadecimal digit test used by the UUID format check. -/
def isHexDigit (c : Char) : Bool :=
  ('0' ≤ c && c ≤ '9') || ('a' ≤ c && c ≤ 'f') || ('A' ≤ c && c ≤ 'F')

/-- Models `z.string().uuid()`: the canonical 8-4-4-4-12 hexadecimal UUID
format with hyphens at positions 8, 13, 18 and 23. -/
def isValidUUID (s : String) : Bool :=
  let cs := s.toList
  cs.length == 36 &&
    (List.range 36).all (fun i =>
      if i == 8 || i == 13 || i == 18 || i == 23 then cs.getD i ' ' == '-'
      else isHexDigit (cs.getD i ' '))

/-- Two-digit rendering of a value below 100. -/
def pad2 (n : Nat) : String :=
  if n < 10 then "0" ++ toString n else toString n

/-- `(num / den).toFixed(2)`; decimal rounding is modelled as round-half-up on
hundredths. -/
def toFixed2 (num den : Nat) : String :=
  let h := (num * 100 + den / 2) / den
  toString (h / 100) ++ "." ++ pad2 (h % 100)

/-- `formatFileSize`: KB below 1 MiB, MB otherwise, two decimal places
(identical in both upload services). -/
def formatFileSize (bytes : Nat) : String :=
  if bytes < 1024 * 1024 then toFixed2 bytes 1024 ++ " KB"
  else toFixed2 bytes (1024 * 1024) ++ " MB"

/-- Upload limit constants (`FILE_UPLOAD_LIMITS` / `PDF_UPLOAD_LIMITS` without
the advisory MIME/extension lists, which the pipelines never read). -/
structure UploadLimits where
  MAX_FILE_SIZE : Nat
  MAX_FILE_SIZE_MB : Nat
  MAX_RECORDS : Nat
deriving DecidableEq

/-- `FILE_UPLOAD_LIMITS` (PNG): 10 MiB, 100 records. -/
def FILE_UPLOAD_LIMITS : UploadLimits :=
  { MAX_FILE_SIZE := 10 * 1024 * 1024, MAX_FILE_SIZE_MB := 10, MAX_RECORDS := 100 }

/-- `PDF_UPLOAD_LIMITS`: 50 MiB, 100 records. -/
def PDF_UPLOAD_LIMITS : UploadLimits :=
  { MAX_FILE_SIZE := 50 * 1024 * 1024, MAX_FILE_SIZE_MB := 50, MAX_RECORDS := 100 }

/-- PNG magic bytes `89 50 4E 47 0D 0A 1A 0A`. -/
def PNG_SIGNATURE : List Nat := [0x89, 0x50, 0x4e, 0x47, 0x0d, 0x0a, 0x1a, 0x0a]

/-- PDF magic bytes `25 50 44 46 2D` (`%PDF-`). -/
def PDF_SIGNATURE : List Nat := [0x25, 0x50, 0x44, 0x46, 0x2d]

/-- `isPNGFile`: buffers shorter than the signature fail closed, otherwise the
leading bytes are compared with the PNG magic. Only the buffer is consulted. -/
def isPNGFile (buffer : List Nat) : Bool :=
  if buffer.length < PNG_SIGNATURE.length then false
  else buffer.take PNG_SIGNATURE.length == PNG_SIGNATURE

/-- `isPDFFile`: same check against the PDF magic. -/
def isPDFFile (buffer : List Nat) : Bool :=
  if buffer.length < PDF_SIGNATURE.length then false
  else buffer.take PDF_SIGNATURE.length == PDF_SIGNATURE

/-- PDF corruption kinds (`PDFCorruptionDetails.type`). -/
inductive CorruptionType
  | cabecalhoInvalido
  | xrefCorrompida
  | trailerAusente
  | objetoCorrompido
  | streamInvalida
  | estruturaInvalida
  | outro
deriving DecidableEq

/-- `PDFCorruptionDetails`: corruption kind plus human-readable message. -/
structure PDFCorruptionDetails where
  type : CorruptionType
  message : String
deriving DecidableEq

/-- Result of `validatePDFStructure`. -/
structure PDFStructureResult where
  valid : Bool
  corruption : Option PDFCorruptionDetails
deriving DecidableEq

/-- Virus scan outcomes (`limpo | infectado | não_verificado | erro_scan`). -/
inductive ScanResult
  | limpo
  | infectado
  | naoVerificado
  | erroScan
deriving DecidableEq

/-- PDF record lifecycle states. -/
inductive UploadStatus
  | aguardando
  | emProgresso
  | concluido
  | erro
  | cancelado
  | interrompido
deriving DecidableEq

/-- Structured details attached to a `ServiceError` where a claim depends on
them: the underlying transport error cause, the corruption kind, the integrity
sizes, or an opaque wrapped non-`ServiceError` exception. -/
inductive ErrDetails
  | none
  | streamCause (cause : Nat)
  | corruption (t : Option CorruptionType)
  | integrity (expectedSize actualSize difference : Nat)
  | wrapped
deriving DecidableEq

/-- A thrown `ServiceError`: error code, HTTP status code, details. -/
structure ServiceError where
  code : String
  statusCode : Nat
  details : ErrDetails := ErrDetails.none
deriving DecidableEq

/-- An exception escaping the inner PDF pipeline: either a `ServiceError` or a
plain `Error` (the store capacity throw), which the outermost catch wraps as
`UPLOAD_FAILED`. -/
inductive InnerErr
  | service (e : ServiceError)
  | plain (message : String)
deriving DecidableEq

/-- `FileUploadEntity` (stored PNG record). -/
structure FileUploadEntity where
  id : String
  fileName : String
  fileSize : Nat
  fileSizeFormatted : String
  width : Nat
  height : Nat
  dimensions : String
  previewUrl : String
  mimeType : String
  buffer : List Nat
  uploadedAt : String
deriving DecidableEq

/-- `FileUploadResponse`: the entity minus its `buffer` field. -/
structure FileUploadResponse where
  id : String
  fileName : String
  fileSize : Nat
  fileSizeFormatted : String
  width : Nat
  height : Nat
  dimensions : String
  previewUrl : String
  mimeType : String
  uploadedAt : String
deriving DecidableEq

/-- The `{ buffer: _, ...response }` destructuring of a PNG entity. -/
def fileEntityToResponse (e : FileUploadEntity) : FileUploadResponse :=
  { id := e.id, fileName := e.fileName, fileSize := e.fileSize
    fileSizeFormatted := e.fileSizeFormatted, width := e.width, height := e.height
    dimensions := e.dimensions, previewUrl := e.previewUrl, mimeType := e.mimeType
    uploadedAt := e.uploadedAt }

/-- `PDFUploadEntity` (stored PDF record). -/
structure PDFUploadEntity where
  id : String
  fileName : String
  fileSize : Nat
  fileSizeFormatted : String
  mimeType : String
  buffer : List Nat
  uploadedAt : String
  integrityValid : Bool
  corruptionType : Option String
  scanResult : ScanResult
  token : String
  status : UploadStatus
deriving DecidableEq

/-- `PDFUploadResponse`: the entity minus its `buffer` and `status` fields. -/
structure PDFUploadResponse where
  id : String
  fileName : String
  fileSize : Nat
  fileSizeFormatted : String
  mimeType : String
  uploadedAt : String
  integrityValid : Bool
  corruptionType : Option String
  scanResult : ScanResult
  token : String
deriving DecidableEq

/-- The `{ buffer: _, status: __, ...response }` destructuring of a PDF
entity. -/
def pdfEntityToResponse (e : PDFUploadEntity) : PDFUploadResponse :=
  { id := e.id, fileName := e.fileName, fileSize := e.fileSize
    fileSizeFormatted := e.fileSizeFormatted, mimeType := e.mimeType
    uploadedAt := e.uploadedAt, integrityValid := e.integrityValid
    corruptionType := e.corruptionType, scanResult := e.scanResult, token := e.token }

/-- A JavaScript `Map<string, α>` as an association list; operations keep keys
unique, mirroring `Map` semantics. -/
abbrev RecMap (α : Type) := List (String × α)

/-- `Map.get`. -/
def mapGet {α : Type} (m : RecMap α) (id : String) : Option α :=
  (m.find? (fun p => p.1 == id)).map (fun p => p.2)

/-- `Map.has`. -/
def mapHas {α : Type} (m : RecMap α) (id : String) : Bool :=
  m.any (fun p => p.1 == id)

/-- `Map.set`: replace in place when the key is present, append otherwise. -/
def mapSet {α : Type} (m : RecMap α) (id : String) (v : α) : RecMap α :=
  if mapHas m id then m.map (fun p => if p.1 == id then (id, v) else p)
  else m ++ [(id, v)]

/-- `Map.delete` under the unique-keys invariant. -/
def mapDelete {α : Type} (m : RecMap α) (id : String) : RecMap α :=
  m.filter (fun p => p.1 != id)

/-- `FileUploadStore`: a single bounded map of PNG records. -/
structure FileUploadStore where
  records : RecMap FileUploadEntity := []
deriving DecidableEq

/-- `FileUploadStore.getById`. -/
def FileUploadStore.getById (st : FileUploadStore) (id : String) : Option FileUploadEntity :=
  mapGet st.records id

/-- `FileUploadStore.add`: throws `Maximum file upload limit reached` once the
map holds `MAX_RECORDS` entries, otherwise inserts keyed by `record.id`. -/
def FileUploadStore.add (st : FileUploadStore) (record : FileUploadEntity) :
    Except String FileUploadStore :=
  if st.records.length ≥ FILE_UPLOAD_LIMITS.MAX_RECORDS then
    Except.error "Maximum file upload limit reached"
  else
    Except.ok { st with records := mapSet st.records record.id record }

/-- `FileUploadStore.delete`. -/
def FileUploadStore.delete (st : FileUploadStore) (id : String) : FileUploadStore × Bool :=
  if mapHas st.records id then ({ st with records := mapDelete st.records id }, true)
  else (st, false)

/-- `FileUploadStore.exists`. -/
def FileUploadStore.existsId (st : FileUploadStore) (id : String) : Bool :=
  mapHas st.records id

/-- `PDFUploadStore`: primary and isolated (quarantine) maps plus the
single-upload in-flight gate. -/
structure PDFUploadStore where
  records : RecMap PDFUploadEntity := []
  isolatedRecords : RecMap PDFUploadEntity := []
  uploadInProgress : Option String := none
deriving DecidableEq

/-- `hasUploadInProgress`. -/
def PDFUploadStore.hasUploadInProgress (st : PDFUploadStore) : Bool :=
  st.uploadInProgress.isSome

/-- `setUploadInProgress`. -/
def PDFUploadStore.setUploadInProgress (st : PDFUploadStore) (uploadId : String) : PDFUploadStore :=
  { st with uploadInProgress := some uploadId }

/-- `clearUploadInProgress`. -/
def PDFUploadStore.clearUploadInProgress (st : PDFUploadStore) : PDFUploadStore :=
  { st with uploadInProgress := none }

/-- `getById`: primary first, then the isolated partition. -/
def PDFUploadStore.getById (st : PDFUploadStore) (id : String) : Option PDFUploadEntity :=
  (mapGet st.records id).orElse (fun _ => mapGet st.isolatedRecords id)

/-- `PDFUploadStore.add` into the primary partition (capacity 100). -/
def PDFUploadStore.add (st : PDFUploadStore) (record : PDFUploadEntity) :
    Except String PDFUploadStore :=
  if st.records.length ≥ PDF_UPLOAD_LIMITS.MAX_RECORDS then
    Except.error "Maximum file upload limit reached"
  else
    Except.ok { st with records := mapSet st.records record.id record }

/-- `PDFUploadStore.addToIsolated` (capacity 100, counted against the isolated
partition only). -/
def PDFUploadStore.addToIsolated (st : PDFUploadStore) (record : PDFUploadEntity) :
    Except String PDFUploadStore :=
  if st.isolatedRecords.length ≥ PDF_UPLOAD_LIMITS.MAX_RECORDS then
    Except.error "Maximum isolated file limit reached"
  else
    Except.ok { st with isolatedRecords := mapSet st.isolatedRecords record.id record }

/-- `PDFUploadStore.delete`: `records.delete(id) || isolatedRecords.delete(id)`
with JavaScript short-circuit — the isolated partition is only touched when
the id is absent from the primary one. -/
def PDFUploadStore.delete (st : PDFUploadStore) (id : String) : PDFUploadStore × Bool :=
  if mapHas st.records id then ({ st with records := mapDelete st.records id }, true)
  else if mapHas st.isolatedRecords id then
    ({ st with isolatedRecords := mapDelete st.isolatedRecords id }, true)
  else (st, false)

/-- `PDFUploadStore.exists`: aggregated over both partitions. -/
def PDFUploadStore.existsId (st : PDFUploadStore) (id : String) : Bool :=
  mapHas st.records id || mapHas st.isolatedRecords id

/-- Terminal event of the Express request stream. -/
inductive StreamTerminal
  | ended
  | errored (cause : Nat)
deriving DecidableEq

/-- The incoming byte stream: data-event chunks in order, then one terminal
event. Node streams never emit zero-length data chunks. -/
structure ByteStream where
  chunks : List (List Nat)
  terminal : StreamTerminal
deriving DecidableEq

/-- The `data`-event loop of `processMultipartUpload`: accumulates chunks and
rejects with `FILE_TOO_LARGE` the instant the running total exceeds the
ceiling, before any later event is looked at. -/
def accumulateChunks (maxFileSize : Nat) (totalSize : Nat) :
    List (List Nat) → Except ServiceError (List (List Nat))
  | [] => Except.ok []
  | chunk :: rest =>
    if totalSize + chunk.length > maxFileSize then
      Except.error { code := "FILE_TOO_LARGE", statusCode := 413 }
    else
      (accumulateChunks maxFileSize (totalSize + chunk.length) rest).map (fun cs => chunk :: cs)

/-- `processMultipartUpload` (identical in both services up to the limit
constants): oversize wins over any terminal event; a transport error rejects
with `UPLOAD_FAILED` carrying the cause; a graceful end with an empty chunk
array rejects with `VALIDATION_ERROR`; otherwise the chunks are concatenated. -/
def processMultipartUpload (limits : UploadLimits) (s : ByteStream) :
    Except ServiceError (List Nat) :=
  match accumulateChunks limits.MAX_FILE_SIZE 0 s.chunks with
  | Except.error e => Except.error e
  | Except.ok chunks =>
    match s.terminal with
    | StreamTerminal.errored cause =>
        Except.error { code := "UPLOAD_FAILED", statusCode := 500
                       details := ErrDetails.streamCause cause }
    | StreamTerminal.ended =>
        if chunks.isEmpty then
          Except.error { code := "VALIDATION_ERROR", statusCode := 400 }
        else Except.ok chunks.flatten

/-- `extractPNGDimensions`: big-endian width/height at offsets 16 and 20;
`none` models the `ERR_OUT_OF_RANGE` throw on a truncated buffer. -/
def extractPNGDimensions (buffer : List Nat) : Option (Nat × Nat) :=
  match readUInt32BE buffer 16, readUInt32BE buffer 20 with
  | some width, some height => some (width, height)
  | _, _ => none

/-- `generatePreviewUrl`: base64 data URL of the whole buffer. -/
def generatePreviewUrl (buffer : List Nat) (mimeType : String) : String :=
  "data:" ++ mimeType ++ ";base64," ++ base64Encode buffer

/-- Inputs of one PNG upload request: the byte stream, the advisory
`x-file-name` header, the freshly generated uuid and the capture timestamp. -/
structure FileUploadInput where
  stream : ByteStream
  fileNameHeader : Option String
  newId : String
  uploadedAt : String
deriving DecidableEq

/-- The PNG entity built by `fileUploadProcess` on the happy path. -/
def mkFileEntity (inp : FileUploadInput) (buffer : List Nat) (dims : Nat × Nat) :
    FileUploadEntity :=
  { id := inp.newId
    fileName := inp.fileNameHeader.getD "upload.png"
    fileSize := buffer.length
    fileSizeFormatted := formatFileSize buffer.length
    width := dims.1
    height := dims.2
    dimensions := toString dims.1 ++ " x " ++ toString dims.2
    previewUrl := generatePreviewUrl buffer "image/png"
    mimeType := "image/png"
    buffer := buffer
    uploadedAt := inp.uploadedAt }

/-- `fileUploadProcess`: ingest, size check, PNG signature, dimensions,
store, respond without the buffer. A store capacity throw is a plain `Error`,
wrapped by the outermost catch as `UPLOAD_FAILED`. -/
def fileUploadProcess (st : FileUploadStore) (inp : FileUploadInput) :
    FileUploadStore × Except ServiceError FileUploadResponse :=
  match processMultipartUpload FILE_UPLOAD_LIMITS inp.stream with
  | Except.error e => (st, Except.error e)
  | Except.ok buffer =>
    if buffer.length > FILE_UPLOAD_LIMITS.MAX_FILE_SIZE then
      (st, Except.error { code := "FILE_TOO_LARGE", statusCode := 413 })
    else if !(isPNGFile buffer) then
      (st, Except.error { code := "INVALID_FILE_TYPE", statusCode := 400 })
    else
      match extractPNGDimensions buffer with
      | none => (st, Except.error { code := "CORRUPTED_FILE", statusCode := 400 })
      | some dims =>
        let entity := mkFileEntity inp buffer dims
        match st.add entity with
        | Except.error _ =>
            (st, Except.error { code := "UPLOAD_FAILED", statusCode := 500
                                details := ErrDetails.wrapped })
        | Except.ok st' => (st', Except.ok (fileEntityToResponse entity))

/-- `fileUploadGet`: uuid validation, then lookup; the response never carries
the stored buffer. -/
def fileUploadGet (st : FileUploadStore) (id : String) : Except ServiceError FileUploadResponse :=
  if !(isValidUUID id) then Except.error { code := "VALIDATION_ERROR", statusCode := 400 }
  else
    match st.getById id with
    | none => Except.error { code := "NOT_FOUND", statusCode := 404 }
    | some e => Except.ok (fileEntityToResponse e)

/-- `fileUploadCancel`: uuid validation, existence check, delete. -/
def fileUploadCancel (st : FileUploadStore) (id : String) :
    FileUploadStore × Except ServiceError String :=
  if !(isValidUUID id) then (st, Except.error { code := "VALIDATION_ERROR", statusCode := 400 })
  else if !(st.existsId id) then (st, Except.error { code := "NOT_FOUND", statusCode := 404 })
  else ((st.delete id).1, Except.ok "File deleted successfully")

/-- JavaScript `\d` over the latin1 view: ASCII digits. -/
def isDigitByte (b : Nat) : Bool :=
  48 ≤ b && b ≤ 57

/-- JavaScript `\s` over the latin1 view: tab, LF, VT, FF, CR, space and
no-break space (the only `\s` code points below 256). -/
def isSpaceByte (b : Nat) : Bool :=
  b == 9 || b == 10 || b == 11 || b == 12 || b == 13 || b == 32 || b == 160

/-- Match of `\d+\s+\d+\s+obj` anchored at the head of the list. Greedy
matching without backtracking is exact here because the digit and whitespace
classes are disjoint and `o` belongs to neither. -/
def matchObjAt (l : List Nat) : Bool :=
  let s1 := l.span isDigitByte
  if s1.1.isEmpty then false
  else
    let s2 := s1.2.span isSpaceByte
    if s2.1.isEmpty then false
    else
      let s3 := s2.2.span isDigitByte
      if s3.1.isEmpty then false
      else
        let s4 := s3.2.span isSpaceByte
        if s4.1.isEmpty then false
        else (strBytes "obj").isPrefixOf s4.2

/-- `/\d+\s+\d+\s+obj/.test(content)`: a match somewhere in the content. -/
def hasObjPattern : List Nat → Bool
  | [] => false
  | b :: rest => matchObjAt (b :: rest) || hasObjPattern rest

/-- `content.includes(pat)` over the latin1 view: the pattern occurs as a
contiguous byte run. -/
def bytesContains (pat : List Nat) : List Nat → Bool
  | [] => pat.isEmpty
  | b :: rest => pat.isPrefixOf (b :: rest) || bytesContains pat rest

/-- `validatePDFStructure`: ordered presence checks over the latin1 view of
the buffer; the first failing check alone produces the corruption details.
(The surrounding `try/catch` mapping unexpected exceptions to kind `outro` is
dead in this model because every step below is total.) -/
def validatePDFStructure (buffer : List Nat) : PDFStructureResult :=
  if !((strBytes "%PDF-").isPrefixOf buffer) then
    { valid := false
      corruption := some { type := CorruptionType.cabecalhoInvalido
                           message := "O arquivo não possui um cabeçalho PDF válido" } }
  else if !(bytesContains (strBytes "xref") buffer) then
    { valid := false
      corruption := some { type := CorruptionType.xrefCorrompida
                           message := "A tabela de referência cruzada (xref) está ausente ou corrompida" } }
  else if !(bytesContains (strBytes "trailer") buffer) then
    { valid := false
      corruption := some { type := CorruptionType.trailerAusente
                           message := "O trailer do PDF está ausente" } }
  else if !(bytesContains (strBytes "startxref") buffer) then
    { valid := false
      corruption := some { type := CorruptionType.estruturaInvalida
                           message := "A estrutura do PDF está incompleta (startxref ausente)" } }
  else if !(bytesContains (strBytes "%%EOF") buffer) then
    { valid := false
      corruption := some { type := CorruptionType.estruturaInvalida
                           message := "O arquivo PDF está incompleto (marcador EOF ausente)" } }
  else if !(hasObjPattern buffer) then
    { valid := false
      corruption := some { type := CorruptionType.objetoCorrompido
                           message := "O PDF não contém objetos válidos" } }
  else { valid := true, corruption := none }

/-- Which way the `Promise.race` inside `scanForVirus` settles: the 100ms
scan-completion timer wins, the 10s timeout timer wins, or the scan path
throws (caught and mapped to `erro_scan`). -/
inductive ScanBehavior
  | completes
  | timesOut
  | throws
deriving DecidableEq

/-- `scanForVirus`: the completion timer always resolves `limpo` (placeholder
engine); the timeout and the catch both yield `erro_scan`. `infectado` and
`não_verificado` are never produced. -/
def scanForVirus : ScanBehavior → ScanResult
  | ScanBehavior.completes => ScanResult.limpo
  | ScanBehavior.timesOut => ScanResult.erroScan
  | ScanBehavior.throws => ScanResult.erroScan

/-- `generateAccessToken`: base64 of the JSON payload
`{"fileId":<id>,"exp":<now + 24h in ms>}`. -/
def generateAccessToken (fileId : String) (nowMs : Nat) : String :=
  base64Encode (strBytes
    ("\x7b\"fileId\":\"" ++ fileId ++ "\",\"exp\":" ++ toString (nowMs + 24 * 60 * 60 * 1000) ++ "\x7d"))

/-- Inputs of one PDF upload request: the byte stream, the advisory
`x-file-name` header, the freshly generated uuid (also used as the gate
marker), the capture timestamp, the current epoch milliseconds for the token,
and how the scan race settles. -/
structure PDFUploadInput where
  stream : ByteStream
  fileNameHeader : Option String
  uploadId : String
  uploadedAt : String
  nowMs : Nat
  scanBehavior : ScanBehavior
deriving DecidableEq

/-- The PDF entity built by `pdfUploadProcess` after validation and scan. -/
def mkPDFEntity (inp : PDFUploadInput) (buffer : List Nat) (scanResult : ScanResult) :
    PDFUploadEntity :=
  { id := inp.uploadId
    fileName := inp.fileNameHeader.getD "upload.pdf"
    fileSize := buffer.length
    fileSizeFormatted := formatFileSize buffer.length
    mimeType := "application/pdf"
    buffer := buffer
    uploadedAt := inp.uploadedAt
    integrityValid := true
    corruptionType := none
    scanResult := scanResult
    token := generateAccessToken inp.uploadId inp.nowMs
    status := UploadStatus.concluido }

/-- The inner `try` of `pdfUploadProcess`, run with the gate already set:
ingest, size check, signature, structure validation, scan, entity
construction, storage into the partition selected by the scan result. The
store capacity throw escapes as a plain (non-`ServiceError`) exception. -/
def pdfUploadPipelineCore (st : PDFUploadStore) (inp : PDFUploadInput) :
    Except InnerErr (PDFUploadStore × PDFUploadResponse) :=
  match processMultipartUpload PDF_UPLOAD_LIMITS inp.stream with
  | Except.error e => Except.error (InnerErr.service e)
  | Except.ok buffer =>
    if buffer.length > PDF_UPLOAD_LIMITS.MAX_FILE_SIZE then
      Except.error (InnerErr.service { code := "FILE_TOO_LARGE", statusCode := 413 })
    else if !(isPDFFile buffer) then
      Except.error (InnerErr.service { code := "INVALID_FILE_TYPE", statusCode := 400 })
    else
      let structureValidation := validatePDFStructure buffer
      if !structureValidation.valid then
        Except.error (InnerErr.service
          { code := "CORRUPTED_FILE", statusCode := 400
            details := ErrDetails.corruption (structureValidation.corruption.map (fun c => c.type)) })
      else
        let scanResult := scanForVirus inp.scanBehavior
        if scanResult = ScanResult.infectado then
          Except.error (InnerErr.service { code := "MALWARE_DETECTED", statusCode := 400 })
        else
          let entity := mkPDFEntity inp buffer scanResult
          if scanResult = ScanResult.erroScan then
            match st.addToIsolated entity with
            | Except.error m => Except.error (InnerErr.plain m)
            | Except.ok st' => Except.ok (st', pdfEntityToResponse entity)
          else
            match st.add entity with
            | Except.error m => Except.error (InnerErr.plain m)
            | Except.ok st' => Except.ok (st', pdfEntityToResponse entity)

/-- `pdfUploadProcess`: fails fast with `UPLOAD_IN_PROGRESS` while the gate is
held (before the request stream is consumed — the result does not mention the
stream); otherwise sets the gate, runs the inner pipeline, and clears the gate
on success and on every thrown error before the result propagates. A plain
exception is wrapped as `UPLOAD_FAILED` by the outermost catch. -/
def pdfUploadProcess (st : PDFUploadStore) (inp : PDFUploadInput) :
    PDFUploadStore × Except ServiceError PDFUploadResponse :=
  if st.hasUploadInProgress then
    (st, Except.error { code := "UPLOAD_IN_PROGRESS", statusCode := 409 })
  else
    let st1 := st.setUploadInProgress inp.uploadId
    match pdfUploadPipelineCore st1 inp with
    | Except.ok (st2, response) => (st2.clearUploadInProgress, Except.ok response)
    | Except.error (InnerErr.service e) => (st1.clearUploadInProgress, Except.error e)
    | Except.error (InnerErr.plain _) =>
        (st1.clearUploadInProgress,
         Except.error { code := "UPLOAD_FAILED", statusCode := 500
                        details := ErrDetails.wrapped })

/-- `pdfUploadGet`: uuid validation, then lookup across both partitions; the
response never carries the stored buffer. -/
def pdfUploadGet (st : PDFUploadStore) (id : String) : Except ServiceError PDFUploadResponse :=
  if !(isValidUUID id) then Except.error { code := "VALIDATION_ERROR", statusCode := 400 }
  else
    match st.getById id with
    | none => Except.error { code := "NOT_FOUND", statusCode := 404 }
    | some e => Except.ok (pdfEntityToResponse e)

/-- `pdfUploadCancel`: uuid validation, existence check across both
partitions, delete from whichever partition holds the id. -/
def pdfUploadCancel (st : PDFUploadStore) (id : String) :
    PDFUploadStore × Except ServiceError String :=
  if !(isValidUUID id) then (st, Except.error { code := "VALIDATION_ERROR", statusCode := 400 })
  else if !(st.existsId id) then (st, Except.error { code := "NOT_FOUND", statusCode := 404 })
  else ((st.delete id).1, Except.ok "File deleted successfully")

/-- The boundary operations of the PDF document store. -/
inductive PDFOp
  | upload (inp : PDFUploadInput)
  | get (id : String)
  | cancel (id : String)

/-- State effect of one boundary operation (`get` never mutates). -/
def applyPDFOp (st : PDFUploadStore) : PDFOp → PDFUploadStore
  | PDFOp.upload inp => (pdfUploadProcess st inp).1
  | PDFOp.get _ => st
  | PDFOp.cancel id => (pdfUploadCancel st id).1

/-- The store a fresh process starts from. -/
def initialPDFStore : PDFUploadStore :=
  { records := [], isolatedRecords := [], uploadInProgress := none }

/-- `PNGMetadata` extracted from the IHDR chunk. -/
structure PNGMetadata where
  width : Nat
  height : Nat
  bitDepth : Nat
  colorType : Nat
  hasTransparency : Bool
deriving DecidableEq

/-- `PNGConversionResponse`. -/
structure PNGConversionResponse where
  fileId : String
  base64String : String
  base64Size : Nat
  expectedSize : Nat
  integrityValid : Bool
  metadata : PNGMetadata
  convertedAt : String
deriving DecidableEq

/-- `extractPNGMetadata`: fixed-offset reads (width 16, height 20, bit depth
24, color type 25); transparency is color type 4 or 6, or else the presence of
the `tRNS` marker. An out-of-range read (`RangeError`) is caught inside the
helper and rethrown as `METADATA_EXTRACTION_FAILED`. -/
def extractPNGMetadata (buffer : List Nat) : Except ServiceError PNGMetadata :=
  match readUInt32BE buffer 16, readUInt32BE buffer 20, readUInt8 buffer 24, readUInt8 buffer 25 with
  | some width, some height, some bitDepth, some colorType =>
    let hasTransparency :=
      if colorType == 4 || colorType == 6 then true
      else bytesContains (strBytes "tRNS") buffer
    Except.ok { width := width, height := height, bitDepth := bitDepth
                colorType := colorType, hasTransparency := hasTransparency }
  | _, _, _, _ =>
    Except.error { code := "METADATA_EXTRACTION_FAILED", statusCode := 500
                   details := ErrDetails.wrapped }

/-- `calculateExpectedBase64Size`: `Math.ceil(fileSize * 4 / 3) + mime prefix
length`. -/
def calculateExpectedBase64Size (fileSize : Nat) (mimePrefixLength : Nat) : Nat :=
  (fileSize * 4 + 2) / 3 + mimePrefixLength

/-- `validateConversionIntegrity`: `|actual − expected| ≤ 0.01 × expected` as
the exact rational comparison. -/
def validateConversionIntegrity (actualSize expectedSize : Nat) : Bool :=
  100 * Nat.dist actualSize expectedSize ≤ expectedSize

/-- `convertToBase64`: base64 body prefixed by `data:<mime>;base64,`. -/
def convertToBase64 (buffer : List Nat) (mimeType : String) : String :=
  "data:" ++ mimeType ++ ";base64," ++ base64Encode buffer

/-- `pngConversionProcess`: uuid validation, lookup, metadata extraction
(whose failures propagate as `METADATA_EXTRACTION_FAILED` `ServiceError`s, so
the outer `MEMORY_ERROR` mapping for raw `RangeError`s never sees them),
expected-size computation, base64 conversion (total here, so its
`CONVERSION_FAILED` wrapper is dead in the model), integrity validation. -/
def pngConversionProcess (st : FileUploadStore) (fileId : String) (convertedAt : String) :
    Except ServiceError PNGConversionResponse :=
  if !(isValidUUID fileId) then Except.error { code := "VALIDATION_ERROR", statusCode := 400 }
  else
    match st.getById fileId with
    | none => Except.error { code := "NOT_FOUND", statusCode := 404 }
    | some fileEntity =>
      match extractPNGMetadata fileEntity.buffer with
      | Except.error e => Except.error e
      | Except.ok metadata =>
        let mimeHead := "data:" ++ fileEntity.mimeType ++ ";base64,"
        let expectedSize := calculateExpectedBase64Size fileEntity.fileSize mimeHead.length
        let base64String := convertToBase64 fileEntity.buffer fileEntity.mimeType
        let actualSize := base64String.length
        let integrityValid := validateConversionIntegrity actualSize expectedSize
        if !integrityValid then
          Except.error { code := "INTEGRITY_ERROR", statusCode := 500
                         details := ErrDetails.integrity expectedSize actualSize
                           (Nat.dist actualSize expectedSize) }
        else
          Except.ok { fileId := fileId, base64String := base64String
                      base64Size := actualSize, expectedSize := expectedSize
                      integrityValid := integrityValid, metadata := metadata
                      convertedAt := convertedAt }

theorem mapGet_isSome {α : Type} (m : RecMap α) (id : String) :
    (mapGet m id).isSome = mapHas m id := by
  unfold mapGet mapHas
  induction m with
  | nil => rfl
  | cons p rest ih =>
    by_cases h : p.1 == id <;> simp [List.find?_cons, List.any_cons, h] <;> simpa using ih

theorem mem_mapSet {α : Type} {m : RecMap α} {id : String} {v : α} {p : String × α}
    (h : p ∈ mapSet m id v) : p ∈ m ∨ p = (id, v) := by
  unfold mapSet at h
  split at h
  · obtain ⟨q, hq, hqe⟩ := List.mem_map.mp h
    by_cases hk : q.1 == id
    · right
      rw [if_pos hk] at hqe
      exact hqe.symm
    · left
      rw [if_neg hk] at hqe
      exact hqe ▸ hq
  · rcases List.mem_append.mp h with h | h
    · exact Or.inl h
    · right
      simpa using h

theorem mem_mapDelete {α : Type} {m : RecMap α} {id : String} {p : String × α}
    (h : p ∈ mapDelete m id) : p ∈ m :=
  (List.mem_filter.mp h).1

theorem mapDelete_length_lt {α : Type} {m : RecMap α} {id : String}
    (h : mapHas m id = true) : (mapDelete m id).length < m.length := by
  induction m with
  | nil => simp [mapHas] at h
  | cons p rest ih =>
    by_cases hp : (p.1 == id) = true
    · have hb : (p.1 != id) = false := by
        simp only [bne, hp, Bool.not_true]
      have h1 : mapDelete (p :: rest) id = mapDelete rest id := by
        simp [mapDelete, List.filter_cons, hb]
      have h2 : (mapDelete rest id).length ≤ rest.length := List.length_filter_le _ _
      rw [h1]
      simp only [List.length_cons]
      omega
    · have hpf : (p.1 == id) = false := by
        cases hq : (p.1 == id) with
        | false => rfl
        | true => exact absurd hq hp
      have hb : (p.1 != id) = true := by
        simp only [bne, hpf, Bool.not_false]
      have h1 : mapDelete (p :: rest) id = p :: mapDelete rest id := by
        simp [mapDelete, List.filter_cons, hb]
      have hrest : mapHas rest id = true := by
        have h2 := h
        simp [mapHas, List.any_cons, hpf] at h2
        simpa [mapHas] using h2
      rw [h1]
      simp only [List.length_cons]
      exact Nat.succ_lt_succ (ih hrest)

theorem base64Groups_length (l : List Nat) :
    (base64Groups l).length = 4 * ((l.length + 2) / 3) := by
  induction l using base64Groups.induct with
  | case1 => rfl
  | case2 b0 => simp [base64Groups]
  | case3 b0 b1 => simp [base64Groups]
  | case4 b0 b1 b2 rest ih =>
    show (base64Groups (b0 :: b1 :: b2 :: rest)).length = _
    unfold base64Groups
    simp only [List.length_cons, ih]
    have h3 : rest.length + 1 + 1 + 1 + 2 = rest.length + 2 + 3 := by omega
    rw [h3, Nat.add_div_right _ (by omega)]
    omega

theorem readUInt32BE_isSome {buffer : List Nat} {off : Nat} (h : off + 4 ≤ buffer.length) :
    ∃ n, readUInt32BE buffer off = some n := by
  have hd : 4 ≤ (buffer.drop off).length := by
    rw [List.length_drop]
    omega
  unfold readUInt32BE
  cases hb : buffer.drop off with
  | nil => rw [hb] at hd; simp at hd
  | cons b0 t0 =>
    cases t0 with
    | nil => rw [hb] at hd; simp at hd
    | cons b1 t1 =>
      cases t1 with
      | nil => rw [hb] at hd; simp at hd
      | cons b2 t2 =>
        cases t2 with
        | nil => rw [hb] at hd; simp at hd
        | cons b3 t3 => exact ⟨_, rfl⟩

theorem readUInt8_isSome {buffer : List Nat} {off : Nat} (h : off + 1 ≤ buffer.length) :
    ∃ n, readUInt8 buffer off = some n := by
  have hd : 1 ≤ (buffer.drop off).length := by
    rw [List.length_drop]
    omega
  unfold readUInt8
  cases hb : buffer.drop off with
  | nil => rw [hb] at hd; simp at hd
  | cons b0 t0 => exact ⟨_, rfl⟩

theorem readUInt8_none {buffer : List Nat} {off : Nat} (h : buffer.length ≤ off) :
    readUInt8 buffer off = none := by
  unfold readUInt8
  cases hb : buffer.drop off with
  | nil => rfl
  | cons b0 t0 =>
    have hl := congrArg List.length hb
    rw [List.length_drop] at hl
    simp at hl
    omega

theorem extractPNGMetadata_isOk {buffer : List Nat} (h : 26 ≤ buffer.length) :
    ∃ m, extractPNGMetadata buffer = Except.ok m := by
  obtain ⟨w, hw⟩ := @readUInt32BE_isSome buffer 16 (by omega)
  obtain ⟨hgt, hh⟩ := @readUInt32BE_isSome buffer 20 (by omega)
  obtain ⟨bd, hbd⟩ := @readUInt8_isSome buffer 24 (by omega)
  obtain ⟨ct, hct⟩ := @readUInt8_isSome buffer 25 (by omega)
  unfold extractPNGMetadata
  rw [hw, hh, hbd, hct]
  exact ⟨_, rfl⟩

theorem extractPNGMetadata_short {buffer : List Nat} (h : buffer.length < 26) :
    extractPNGMetadata buffer =
      Except.error { code := "METADATA_EXTRACTION_FAILED", statusCode := 500
                     details := ErrDetails.wrapped } := by
  have h25 : readUInt8 buffer 25 = none := readUInt8_none (by omega)
  unfold extractPNGMetadata
  rw [h25]
  cases readUInt32BE buffer 16 <;> cases readUInt32BE buffer 20 <;> cases readUInt8 buffer 24 <;> rfl

theorem accumulateChunks_exceeds (maxFileSize : Nat) (pre : List (List Nat)) :
    ∀ (c : List Nat) (post : List (List Nat)) (t : Nat),
      maxFileSize < t + ((pre.map List.length).sum + c.length) →
      accumulateChunks maxFileSize t (pre ++ c :: post) =
        Except.error { code := "FILE_TOO_LARGE", statusCode := 413 } := by
  induction pre with
  | nil =>
    intro c post t h
    show accumulateChunks maxFileSize t (c :: post) = _
    unfold accumulateChunks
    rw [if_pos (by simp at h; omega)]
  | cons a rest ih =>
    intro c post t h
    show accumulateChunks maxFileSize t (a :: (rest ++ c :: post)) = _
    unfold accumulateChunks
    by_cases ha : t + a.length > maxFileSize
    · rw [if_pos ha]
    · rw [if_neg ha, ih c post (t + a.length) (by simp at h ⊢; omega)]
      rfl

theorem accumulateChunks_ok (maxFileSize : Nat) (chunks : List (List Nat)) :
    ∀ t : Nat, t + (chunks.map List.length).sum ≤ maxFileSize →
      accumulateChunks maxFileSize t chunks = Except.ok chunks := by
  induction chunks with
  | nil => intro t h; rfl
  | cons a rest ih =>
    intro t h
    unfold accumulateChunks
    rw [if_neg (by simp at h; omega), ih (t + a.length) (by simp at h ⊢; omega)]
    rfl

theorem PDFUploadStore.add_ok_eq {st : PDFUploadStore} {e : PDFUploadEntity}
    {st' : PDFUploadStore} (h : st.add e = Except.ok st') :
    st' = { st with records := mapSet st.records e.id e } := by
  unfold PDFUploadStore.add at h
  split at h
  · simp at h
  · injection h with h
    exact h.symm

theorem PDFUploadStore.addToIsolated_ok_eq {st : PDFUploadStore} {e : PDFUploadEntity}
    {st' : PDFUploadStore} (h : st.addToIsolated e = Except.ok st') :
    st' = { st with isolatedRecords := mapSet st.isolatedRecords e.id e } := by
  unfold PDFUploadStore.addToIsolated at h
  split at h
  · simp at h
  · injection h with h
    exact h.symm

theorem scanForVirus_cases (b : ScanBehavior) :
    scanForVirus b = ScanResult.limpo ∨ scanForVirus b = ScanResult.erroScan := by
  cases b
  · exact Or.inl rfl
  · exact Or.inr rfl
  · exact Or.inr rfl

/-- The invariant every entity stored by `pdfUploadProcess` satisfies by
construction. -/
def pdfEntityOk (e : PDFUploadEntity) : Prop :=
  e.integrityValid = true ∧ e.corruptionType = none ∧ e.status = UploadStatus.concluido ∧
    (e.scanResult = ScanResult.limpo ∨ e.scanResult = ScanResult.erroScan)

theorem mkPDFEntity_ok (inp : PDFUploadInput) (buffer : List Nat) (sr : ScanResult)
    (h : sr = ScanResult.limpo ∨ sr = ScanResult.erroScan) :
    pdfEntityOk (mkPDFEntity inp buffer sr) :=
  ⟨rfl, rfl, rfl, h⟩

theorem pdfUploadPipelineCore_ok {st : PDFUploadStore} {inp : PDFUploadInput}
    {st' : PDFUploadStore} {r : PDFUploadResponse}
    (h : pdfUploadPipelineCore st inp = Except.ok (st', r)) :
    ∃ e : PDFUploadEntity, pdfEntityOk e ∧ r = pdfEntityToResponse e ∧
      ((e.scanResult = ScanResult.erroScan ∧
          st'.records = st.records ∧
          st'.isolatedRecords = mapSet st.isolatedRecords e.id e ∧
          st'.uploadInProgress = st.uploadInProgress) ∨
       (e.scanResult ≠ ScanResult.erroScan ∧
          st'.records = mapSet st.records e.id e ∧
          st'.isolatedRecords = st.isolatedRecords ∧
          st'.uploadInProgress = st.uploadInProgress)) := by
  simp only [pdfUploadPipelineCore] at h
  split at h
  · simp at h
  rename_i buffer hbuf
  split at h
  · simp at h
  split at h
  · simp at h
  split at h
  · simp at h
  split at h
  · simp at h
  split at h
  · rename_i hscan
    split at h
    · simp at h
    rename_i st2 hadd
    injection h with hpair
    have hst : st2 = st' := congrArg Prod.fst hpair
    have hr : pdfEntityToResponse (mkPDFEntity inp buffer (scanForVirus inp.scanBehavior)) = r :=
      congrArg Prod.snd hpair
    refine ⟨mkPDFEntity inp buffer (scanForVirus inp.scanBehavior),
      mkPDFEntity_ok inp buffer _ (scanForVirus_cases inp.scanBehavior), hr.symm, Or.inl ?_⟩
    have hst2 := PDFUploadStore.addToIsolated_ok_eq hadd
    rw [← hst, hst2]
    exact ⟨hscan, rfl, rfl, rfl⟩
  · rename_i hscan
    split at h
    · simp at h
    rename_i st2 hadd
    injection h with hpair
    have hst : st2 = st' := congrArg Prod.fst hpair
    have hr : pdfEntityToResponse (mkPDFEntity inp buffer (scanForVirus inp.scanBehavior)) = r :=
      congrArg Prod.snd hpair
    refine ⟨mkPDFEntity inp buffer (scanForVirus inp.scanBehavior),
      mkPDFEntity_ok inp buffer _ (scanForVirus_cases inp.scanBehavior), hr.symm, Or.inr ?_⟩
    have hst2 := PDFUploadStore.add_ok_eq hadd
    rw [← hst, hst2]
    exact ⟨hscan, rfl, rfl, rfl⟩

theorem pdfUploadProcess_state (st : PDFUploadStore) (inp : PDFUploadInput) :
    ((pdfUploadProcess st inp).1.records = st.records ∧
     (pdfUploadProcess st inp).1.isolatedRecords = st.isolatedRecords) ∨
    (∃ e, pdfEntityOk e ∧ e.scanResult = ScanResult.erroScan ∧
       (pdfUploadProcess st inp).1.records = st.records ∧
       (pdfUploadProcess st inp).1.isolatedRecords = mapSet st.isolatedRecords e.id e) ∨
    (∃ e, pdfEntityOk e ∧ e.scanResult ≠ ScanResult.erroScan ∧
       (pdfUploadProcess st inp).1.records = mapSet st.records e.id e ∧
       (pdfUploadProcess st inp).1.isolatedRecords = st.isolatedRecords) := by
  simp only [pdfUploadProcess]
  split
  · exact Or.inl ⟨rfl, rfl⟩
  · split
    · rename_i st2 response hok
      rcases pdfUploadPipelineCore_ok hok with
        ⟨e, hOk, hresp, ⟨hscan, h1, h2, h3⟩ | ⟨hscan, h1, h2, h3⟩⟩
      · exact Or.inr (Or.inl ⟨e, hOk, hscan, h1, h2⟩)
      · exact Or.inr (Or.inr ⟨e, hOk, hscan, h1, h2⟩)
    · exact Or.inl ⟨rfl, rfl⟩
    · exact Or.inl ⟨rfl, rfl⟩

theorem pdfUploadCancel_subset (st : PDFUploadStore) (id : String) :
    (∀ p ∈ (pdfUploadCancel st id).1.records, p ∈ st.records) ∧
    (∀ p ∈ (pdfUploadCancel st id).1.isolatedRecords, p ∈ st.isolatedRecords) := by
  unfold pdfUploadCancel
  split
  · exact ⟨fun p hp => hp, fun p hp => hp⟩
  split
  · exact ⟨fun p hp => hp, fun p hp => hp⟩
  · unfold PDFUploadStore.delete
    split
    · exact ⟨fun p hp => mem_mapDelete hp, fun p hp => hp⟩
    split
    · exact ⟨fun p hp => hp, fun p hp => mem_mapDelete hp⟩
    · exact ⟨fun p hp => hp, fun p hp => hp⟩

/-- Quarantine placement invariant: isolated records all have scan outcome
`erro_scan`; primary records never do. -/
def quarantineInv (st : PDFUploadStore) : Prop :=
  (∀ p ∈ st.isolatedRecords, p.2.scanResult = ScanResult.erroScan) ∧
  (∀ p ∈ st.records, p.2.scanResult ≠ ScanResult.erroScan)

theorem quarantineInv_applyPDFOp (st : PDFUploadStore) (op : PDFOp)
    (h : quarantineInv st) : quarantineInv (applyPDFOp st op) := by
  cases op with
  | get id => exact h
  | cancel id =>
    obtain ⟨hs1, hs2⟩ := pdfUploadCancel_subset st id
    exact ⟨fun p hp => h.1 p (hs2 p hp), fun p hp => h.2 p (hs1 p hp)⟩
  | upload inp =>
    rcases pdfUploadProcess_state st inp with
      ⟨h1, h2⟩ | ⟨e, hOk, hscan, h1, h2⟩ | ⟨e, hOk, hscan, h1, h2⟩
    · constructor
      · rw [show applyPDFOp st (PDFOp.upload inp) = (pdfUploadProcess st inp).1 from rfl, h2]
        exact h.1
      · rw [show applyPDFOp st (PDFOp.upload inp) = (pdfUploadProcess st inp).1 from rfl, h1]
        exact h.2
    · constructor
      · rw [show applyPDFOp st (PDFOp.upload inp) = (pdfUploadProcess st inp).1 from rfl, h2]
        intro p hp
        rcases mem_mapSet hp with hmem | heq
        · exact h.1 p hmem
        · rw [heq]
          exact hscan
      · rw [show applyPDFOp st (PDFOp.upload inp) = (pdfUploadProcess st inp).1 from rfl, h1]
        exact h.2
    · constructor
      · rw [show applyPDFOp st (PDFOp.upload inp) = (pdfUploadProcess st inp).1 from rfl, h2]
        exact h.1
      · rw [show applyPDFOp st (PDFOp.upload inp) = (pdfUploadProcess st inp).1 from rfl, h1]
        intro p hp
        rcases mem_mapSet hp with hmem | heq
        · exact h.2 p hmem
        · rw [heq]
          exact hscan

theorem quarantineInv_foldl (ops : List PDFOp) :
    ∀ st : PDFUploadStore, quarantineInv st → quarantineInv (ops.foldl applyPDFOp st) := by
  induction ops with
  | nil => exact fun st h => h
  | cons op rest ih => exact fun st h => ih _ (quarantineInv_applyPDFOp st op h)

/-- Stored-entity invariant: every record in either partition was built by the
upload pipeline. -/
def storedEntitiesOk (st : PDFUploadStore) : Prop :=
  (∀ p ∈ st.records, pdfEntityOk p.2) ∧ (∀ p ∈ st.isolatedRecords, pdfEntityOk p.2)

theorem storedEntitiesOk_applyPDFOp (st : PDFUploadStore) (op : PDFOp)
    (h : storedEntitiesOk st) : storedEntitiesOk (applyPDFOp st op) := by
  cases op with
  | get id => exact h
  | cancel id =>
    obtain ⟨hs1, hs2⟩ := pdfUploadCancel_subset st id
    exact ⟨fun p hp => h.1 p (hs1 p hp), fun p hp => h.2 p (hs2 p hp)⟩
  | upload inp =>
    rcases pdfUploadProcess_state st inp with
      ⟨h1, h2⟩ | ⟨e, hOk, hscan, h1, h2⟩ | ⟨e, hOk, hscan, h1, h2⟩
    · constructor
      · rw [show applyPDFOp st (PDFOp.upload inp) = (pdfUploadProcess st inp).1 from rfl, h1]
        exact h.1
      · rw [show applyPDFOp st (PDFOp.upload inp) = (pdfUploadProcess st inp).1 from rfl, h2]
        exact h.2
    · constructor
      · rw [show applyPDFOp st (PDFOp.upload inp) = (pdfUploadProcess st inp).1 from rfl, h1]
        exact h.1
      · rw [show applyPDFOp st (PDFOp.upload inp) = (pdfUploadProcess st inp).1 from rfl, h2]
        intro p hp
        rcases mem_mapSet hp with hmem | heq
        · exact h.2 p hmem
        · rw [heq]
          exact hOk
    · constructor
      · rw [show applyPDFOp st (PDFOp.upload inp) = (pdfUploadProcess st inp).1 from rfl, h1]
        intro p hp
        rcases mem_mapSet hp with hmem | heq
        · exact h.1 p hmem
        · rw [heq]
          exact hOk
      · rw [show applyPDFOp st (PDFOp.upload inp) = (pdfUploadProcess st inp).1 from rfl, h2]
        exact h.2

theorem storedEntitiesOk_foldl (ops : List PDFOp) :
    ∀ st : PDFUploadStore, storedEntitiesOk st → storedEntitiesOk (ops.foldl applyPDFOp st) := by
  induction ops with
  | nil => exact fun st h => h
  | cons op rest ih => exact fun st h => ih _ (storedEntitiesOk_applyPDFOp st op h)

/-- C2: for every document record reachable by any sequence of upload, get and
cancel operations from the initial store, the record resides in the isolated
(quarantine) partition exactly when its `scanResult` is `erro_scan`: every
isolated record has `scanResult = erro_scan`, and no primary record does. -/
theorem c2_quarantine_iff_scan_unavailable (ops : List PDFOp) :
    (∀ p ∈ (ops.foldl applyPDFOp initialPDFStore).isolatedRecords,
        p.2.scanResult = ScanResult.erroScan) ∧
    (∀ p ∈ (ops.foldl applyPDFOp initialPDFStore).records,
        p.2.scanResult ≠ ScanResult.erroScan) :=
  quarantineInv_foldl ops initialPDFStore
    ⟨fun p hp => absurd hp (List.not_mem_nil p), fun p hp => absurd hp (List.not_mem_nil p)⟩

/-- C10: every document record stored in either partition, in any store
reachable by upload/get/cancel operations, has `integrityValid = true`,
`corruptionType = null`, `status = concluido`, and `scanResult` equal to
`limpo` or `erro_scan` — corrupt or infected files are never stored, and
`infectado` / `não_verificado` are never attached to a stored record. -/
theorem c10_stored_records_validated (ops : List PDFOp) :
    ∀ p ∈ (ops.foldl applyPDFOp initialPDFStore).records ++
          (ops.foldl applyPDFOp initialPDFStore).isolatedRecords,
      p.2.integrityValid = true ∧ p.2.corruptionType = none ∧
        p.2.status = UploadStatus.concluido ∧
        (p.2.scanResult = ScanResult.limpo ∨ p.2.scanResult = ScanResult.erroScan) := by
  have h := storedEntitiesOk_foldl ops initialPDFStore
    ⟨fun p hp => absurd hp (List.not_mem_nil p), fun p hp => absurd hp (List.not_mem_nil p)⟩
  intro p hp
  rcases List.mem_append.mp hp with hp | hp
  · exact h.1 p hp
  · exact h.2 p hp

/-- C3: a document upload started while the gate is held fails with
`UPLOAD_IN_PROGRESS` and leaves the store untouched — the result is a constant
independent of the incoming stream, so no bytes of the second request are
consumed; and whenever the gate was free at entry (so the pipeline sets it),
it is `none` again on every exit path, success, quarantine or error, so a
subsequent upload is never blocked by a terminated one. -/
theorem c3_single_flight_gate (st : PDFUploadStore) (inp : PDFUploadInput) :
    (∀ uid, st.uploadInProgress = some uid →
        pdfUploadProcess st inp =
          (st, Except.error { code := "UPLOAD_IN_PROGRESS", statusCode := 409 })) ∧
    (st.uploadInProgress = none → (pdfUploadProcess st inp).1.uploadInProgress = none) := by
  constructor
  · intro uid h
    have hb : st.hasUploadInProgress = true := by
      simp [PDFUploadStore.hasUploadInProgress, h]
    simp only [pdfUploadProcess, hb, if_true]
  · intro h
    have hb : st.hasUploadInProgress = false := by
      simp [PDFUploadStore.hasUploadInProgress, h]
    simp only [pdfUploadProcess, hb, Bool.false_eq_true, if_false]
    split
    · rfl
    · rfl
    · rfl

/-- Store with the gate held, for the C3 witness. -/
def gateBusyStore : PDFUploadStore :=
  { records := [], isolatedRecords := [], uploadInProgress := some "u1" }

/-- A trivial upload request used by gate witnesses. -/
def sampleInput : PDFUploadInput :=
  { stream := { chunks := [], terminal := StreamTerminal.ended }
    fileNameHeader := none, uploadId := "id1", uploadedAt := "t", nowMs := 0
    scanBehavior := ScanBehavior.completes }

theorem c3_single_flight_gate_witness :
    pdfUploadProcess gateBusyStore sampleInput =
      (gateBusyStore, Except.error { code := "UPLOAD_IN_PROGRESS", statusCode := 409 }) ∧
    (pdfUploadProcess initialPDFStore sampleInput).1.uploadInProgress = none :=
  ⟨(c3_single_flight_gate gateBusyStore sampleInput).1 "u1" rfl,
   (c3_single_flight_gate initialPDFStore sampleInput).2 rfl⟩

/-- C4: PDF structural validation checks header, xref, trailer, startxref,
EOF marker and object pattern in that fixed order, the first failing check
alone fixing the reported kind; a buffer with a valid PDF header lacking both
`xref` and `trailer` reports `xref_corrompida`, never `trailer_ausente`. -/
theorem c4_structure_first_failing_check (b : List Nat)
    (hheader : (strBytes "%PDF-").isPrefixOf b = true)
    (hxref : bytesContains (strBytes "xref") b = false)
    (htrailer : bytesContains (strBytes "trailer") b = false) :
    validatePDFStructure b =
      { valid := false
        corruption := some
          { type := CorruptionType.xrefCorrompida
            message := "A tabela de referência cruzada (xref) está ausente ou corrompida" } } := by
  unfold validatePDFStructure
  rw [if_neg (by simp [hheader]), if_pos (by simp [hxref])]

theorem c4_structure_first_failing_check_witness :
    validatePDFStructure (strBytes "%PDF-1.4 hello 1 0 obj") =
      { valid := false
        corruption := some
          { type := CorruptionType.xrefCorrompida
            message := "A tabela de referência cruzada (xref) está ausente ou corrompida" } } :=
  c4_structure_first_failing_check _ (by decide) (by decide) (by decide)

theorem isPNGFile_iff (b : List Nat) : isPNGFile b = true ↔ b.take 8 = PNG_SIGNATURE := by
  unfold isPNGFile
  rcases Nat.lt_or_ge b.length PNG_SIGNATURE.length with h | h
  · rw [if_pos h]
    simp only [Bool.false_eq_true, false_iff]
    intro heq
    have hl := congrArg List.length heq
    rw [List.length_take] at hl
    simp [PNG_SIGNATURE] at hl h
    omega
  · rw [if_neg (Nat.not_lt.mpr h)]
    simp [PNG_SIGNATURE]

theorem isPDFFile_iff (b : List Nat) : isPDFFile b = true ↔ b.take 5 = PDF_SIGNATURE := by
  unfold isPDFFile
  rcases Nat.lt_or_ge b.length PDF_SIGNATURE.length with h | h
  · rw [if_pos h]
    simp only [Bool.false_eq_true, false_iff]
    intro heq
    have hl := congrArg List.length heq
    rw [List.length_take] at hl
    simp [PDF_SIGNATURE] at hl h
    omega
  · rw [if_neg (Nat.not_lt.mpr h)]
    simp [PDF_SIGNATURE]

theorem pdfUploadProcess_invalid_type {st : PDFUploadStore} {inp : PDFUploadInput}
    {buf : List Nat}
    (hgate : st.uploadInProgress = none)
    (hok : processMultipartUpload PDF_UPLOAD_LIMITS inp.stream = Except.ok buf)
    (hsize : buf.length ≤ PDF_UPLOAD_LIMITS.MAX_FILE_SIZE)
    (hsig : isPDFFile buf = false) :
    (pdfUploadProcess st inp).2 =
      Except.error { code := "INVALID_FILE_TYPE", statusCode := 400 } := by
  have hgateb : st.hasUploadInProgress = false := by
    simp [PDFUploadStore.hasUploadInProgress, hgate]
  have hpipe : pdfUploadPipelineCore (st.setUploadInProgress inp.uploadId) inp =
      Except.error (InnerErr.service { code := "INVALID_FILE_TYPE", statusCode := 400 }) := by
    simp only [pdfUploadPipelineCore, hok]
    rw [if_neg (Nat.not_lt.mpr hsize), if_pos (by simp [hsig])]
  simp only [pdfUploadProcess, hgateb, Bool.false_eq_true, if_false, hpipe]

theorem fileUploadProcess_invalid_type {st : FileUploadStore} {inp : FileUploadInput}
    {buf : List Nat}
    (hok : processMultipartUpload FILE_UPLOAD_LIMITS inp.stream = Except.ok buf)
    (hsize : buf.length ≤ FILE_UPLOAD_LIMITS.MAX_FILE_SIZE)
    (hsig : isPNGFile buf = false) :
    fileUploadProcess st inp =
      (st, Except.error { code := "INVALID_FILE_TYPE", statusCode := 400 }) := by
  simp only [fileUploadProcess, hok]
  rw [if_neg (Nat.not_lt.mpr hsize), if_pos (by simp [hsig])]

/-- C5: the signature validators accept exactly the buffers whose first N
bytes equal the format magic (N = 8 for PNG, N = 5 for PDF); shorter or
differing buffers are rejected, the pipelines then failing with
`INVALID_FILE_TYPE`; the decision is a function of the buffer alone — the
declared MIME type and filename header are not consulted (they are universally
quantified inside `inp` and do not appear in the conclusion). -/
theorem c5_signature_exact (b : List Nat) :
    (isPNGFile b = true ↔ b.take 8 = PNG_SIGNATURE) ∧
    (isPDFFile b = true ↔ b.take 5 = PDF_SIGNATURE) ∧
    (∀ (st : PDFUploadStore) (inp : PDFUploadInput) (buf : List Nat),
        st.uploadInProgress = none →
        processMultipartUpload PDF_UPLOAD_LIMITS inp.stream = Except.ok buf →
        buf.length ≤ PDF_UPLOAD_LIMITS.MAX_FILE_SIZE →
        isPDFFile buf = false →
        (pdfUploadProcess st inp).2 =
          Except.error { code := "INVALID_FILE_TYPE", statusCode := 400 }) ∧
    (∀ (st : FileUploadStore) (inp : FileUploadInput) (buf : List Nat),
        processMultipartUpload FILE_UPLOAD_LIMITS inp.stream = Except.ok buf →
        buf.length ≤ FILE_UPLOAD_LIMITS.MAX_FILE_SIZE →
        isPNGFile buf = false →
        fileUploadProcess st inp =
          (st, Except.error { code := "INVALID_FILE_TYPE", statusCode := 400 })) :=
  ⟨isPNGFile_iff b, isPDFFile_iff b,
   fun _ _ _ hgate hok hsize hsig => pdfUploadProcess_invalid_type hgate hok hsize hsig,
   fun _ _ _ hok hsize hsig => fileUploadProcess_invalid_type hok hsize hsig⟩

/-- A one-chunk stream whose buffer is not a PDF, for the C5 witness. -/
def notPdfStream : ByteStream :=
  { chunks := [[0x50, 0x4e, 0x47]], terminal := StreamTerminal.ended }

/-- Upload request carrying `notPdfStream`. -/
def notPdfInput : PDFUploadInput :=
  { stream := notPdfStream, fileNameHeader := some "a.pdf", uploadId := "id9"
    uploadedAt := "t", nowMs := 0, scanBehavior := ScanBehavior.completes }

theorem c5_signature_exact_witness :
    (isPNGFile (PNG_SIGNATURE ++ [0]) = true ↔
        (PNG_SIGNATURE ++ [0]).take 8 = PNG_SIGNATURE) ∧
    (pdfUploadProcess initialPDFStore notPdfInput).2 =
      Except.error { code := "INVALID_FILE_TYPE", statusCode := 400 } :=
  ⟨(c5_signature_exact (PNG_SIGNATURE ++ [0])).1,
   (c5_signature_exact []).2.2.1 initialPDFStore notPdfInput [0x50, 0x4e, 0x47]
     rfl rfl (by decide) (by decide)⟩

/-- C6: `add` succeeds exactly while the primary partition holds fewer than
`MAX_RECORDS` (100) live entries, so the 101st concurrent record is refused
but deleting any id present in the partition makes the next `add` succeed
again (capacity is the live count, not a monotonic counter); and the document
store's `addToIsolated` enforces the same 100-entry ceiling against the
isolated partition's own size, with the primary partition's size absent from
its success condition. -/
theorem c6_capacity_live_count :
    (∀ (st : PDFUploadStore) (e : PDFUploadEntity),
        (∃ st', st.add e = Except.ok st') ↔
          st.records.length < PDF_UPLOAD_LIMITS.MAX_RECORDS) ∧
    (∀ (st : PDFUploadStore) (e : PDFUploadEntity),
        (∃ st', st.addToIsolated e = Except.ok st') ↔
          st.isolatedRecords.length < PDF_UPLOAD_LIMITS.MAX_RECORDS) ∧
    (∀ (st : PDFUploadStore) (e : PDFUploadEntity) (id : String),
        st.records.length ≤ PDF_UPLOAD_LIMITS.MAX_RECORDS →
        mapHas st.records id = true →
        ∃ st', ((st.delete id).1).add e = Except.ok st') ∧
    (∀ (st : FileUploadStore) (e : FileUploadEntity),
        (∃ st', st.add e = Except.ok st') ↔
          st.records.length < FILE_UPLOAD_LIMITS.MAX_RECORDS) ∧
    (∀ (st : FileUploadStore) (e : FileUploadEntity) (id : String),
        st.records.length ≤ FILE_UPLOAD_LIMITS.MAX_RECORDS →
        mapHas st.records id = true →
        ∃ st', ((st.delete id).1).add e = Except.ok st') ∧
    PDF_UPLOAD_LIMITS.MAX_RECORDS = 100 ∧ FILE_UPLOAD_LIMITS.MAX_RECORDS = 100 := by
  refine ⟨?_, ?_, ?_, ?_, ?_, rfl, rfl⟩
  · intro st e
    unfold PDFUploadStore.add
    constructor
    · intro ⟨st', h⟩
      by_cases hc : st.records.length ≥ PDF_UPLOAD_LIMITS.MAX_RECORDS
      · rw [if_pos hc] at h
        simp at h
      · omega
    · intro h
      rw [if_neg (by omega)]
      exact ⟨_, rfl⟩
  · intro st e
    unfold PDFUploadStore.addToIsolated
    constructor
    · intro ⟨st', h⟩
      by_cases hc : st.isolatedRecords.length ≥ PDF_UPLOAD_LIMITS.MAX_RECORDS
      · rw [if_pos hc] at h
        simp at h
      · omega
    · intro h
      rw [if_neg (by omega)]
      exact ⟨_, rfl⟩
  · intro st e id hlen hhas
    have hdel : ((st.delete id).1).records.length < PDF_UPLOAD_LIMITS.MAX_RECORDS := by
      unfold PDFUploadStore.delete
      rw [if_pos hhas]
      have := @mapDelete_length_lt _ st.records id hhas
      simpa using (by omega : (mapDelete st.records id).length < PDF_UPLOAD_LIMITS.MAX_RECORDS)
    unfold PDFUploadStore.add
    rw [if_neg (by omega)]
    exact ⟨_, rfl⟩
  · intro st e
    unfold FileUploadStore.add
    constructor
    · intro ⟨st', h⟩
      by_cases hc : st.records.length ≥ FILE_UPLOAD_LIMITS.MAX_RECORDS
      · rw [if_pos hc] at h
        simp at h
      · omega
    · intro h
      rw [if_neg (by omega)]
      exact ⟨_, rfl⟩
  · intro st e id hlen hhas
    have hdel : ((st.delete id).1).records.length < FILE_UPLOAD_LIMITS.MAX_RECORDS := by
      unfold FileUploadStore.delete
      rw [if_pos hhas]
      have := @mapDelete_length_lt _ st.records id hhas
      simpa using (by omega : (mapDelete st.records id).length < FILE_UPLOAD_LIMITS.MAX_RECORDS)
    unfold FileUploadStore.add
    rw [if_neg (by omega)]
    exact ⟨_, rfl⟩

/-- A PDF entity for constructing witness stores. -/
def witnessPDFEntity : PDFUploadEntity :=
  { id := "a", fileName := "f.pdf", fileSize := 0, fileSizeFormatted := "0.00 KB"
    mimeType := "application/pdf", buffer := [], uploadedAt := "t"
    integrityValid := true, corruptionType := none, scanResult := ScanResult.limpo
    token := "tk", status := UploadStatus.concluido }

/-- A PDF store whose primary partition holds 100 entries. -/
def fullPDFStore : PDFUploadStore :=
  { records := List.replicate 100 ("a", witnessPDFEntity)
    isolatedRecords := [], uploadInProgress := none }

/-- A PNG entity for constructing witness stores. -/
def witnessFileEntity : FileUploadEntity :=
  { id := "a", fileName := "f.png", fileSize := 0, fileSizeFormatted := "0.00 KB"
    width := 1, height := 1, dimensions := "1 x 1", previewUrl := ""
    mimeType := "image/png", buffer := [], uploadedAt := "t" }

/-- A PNG store whose partition holds 100 entries. -/
def fullFileStore : FileUploadStore :=
  { records := List.replicate 100 ("a", witnessFileEntity) }

theorem c6_capacity_live_count_witness :
    (¬ ∃ st', fullPDFStore.add witnessPDFEntity = Except.ok st') ∧
    (∃ st', ((fullPDFStore.delete "a").1).add witnessPDFEntity = Except.ok st') ∧
    (∃ st', fullPDFStore.addToIsolated witnessPDFEntity = Except.ok st') ∧
    (¬ ∃ st', fullFileStore.add witnessFileEntity = Except.ok st') ∧
    (∃ st', ((fullFileStore.delete "a").1).add witnessFileEntity = Except.ok st') := by
  refine ⟨?_, ?_, ?_, ?_, ?_⟩
  · intro h
    have h2 := (c6_capacity_live_count.1 fullPDFStore witnessPDFEntity).mp h
    simp [fullPDFStore, PDF_UPLOAD_LIMITS] at h2
  · exact c6_capacity_live_count.2.2.1 fullPDFStore witnessPDFEntity "a"
      (by simp [fullPDFStore, PDF_UPLOAD_LIMITS]) (by decide)
  · exact (c6_capacity_live_count.2.1 fullPDFStore witnessPDFEntity).mpr
      (by simp [fullPDFStore, PDF_UPLOAD_LIMITS])
  · intro h
    have h2 := (c6_capacity_live_count.2.2.2.1 fullFileStore witnessFileEntity).mp h
    simp [fullFileStore, FILE_UPLOAD_LIMITS] at h2
  · exact c6_capacity_live_count.2.2.2.2.1 fullFileStore witnessFileEntity "a"
      (by simp [fullFileStore, FILE_UPLOAD_LIMITS]) (by decide)

theorem processMultipartUpload_exceeds (limits : UploadLimits) (pre : List (List Nat))
    (c : List Nat) (post : List (List Nat)) (term : StreamTerminal)
    (h : limits.MAX_FILE_SIZE < (pre.map List.length).sum + c.length) :
    processMultipartUpload limits { chunks := pre ++ c :: post, terminal := term } =
      Except.error { code := "FILE_TOO_LARGE", statusCode := 413 } := by
  unfold processMultipartUpload
  rw [accumulateChunks_exceeds limits.MAX_FILE_SIZE pre c post 0 (by omega)]

theorem pdfUploadProcess_ingest_error {st : PDFUploadStore} {inp : PDFUploadInput}
    {err : ServiceError}
    (hgate : st.uploadInProgress = none)
    (herr : processMultipartUpload PDF_UPLOAD_LIMITS inp.stream = Except.error err) :
    (pdfUploadProcess st inp).1.records = st.records ∧
    (pdfUploadProcess st inp).1.isolatedRecords = st.isolatedRecords ∧
    (pdfUploadProcess st inp).2 = Except.error err := by
  have hgateb : st.hasUploadInProgress = false := by
    simp [PDFUploadStore.hasUploadInProgress, hgate]
  have hpipe : pdfUploadPipelineCore (st.setUploadInProgress inp.uploadId) inp =
      Except.error (InnerErr.service err) := by
    simp only [pdfUploadPipelineCore, herr]
  simp only [pdfUploadProcess, hgateb, Bool.false_eq_true, if_false, hpipe]
  exact ⟨rfl, rfl, trivial⟩

theorem fileUploadProcess_ingest_error {st : FileUploadStore} {inp : FileUploadInput}
    {err : ServiceError}
    (herr : processMultipartUpload FILE_UPLOAD_LIMITS inp.stream = Except.error err) :
    fileUploadProcess st inp = (st, Except.error err) := by
  simp only [fileUploadProcess, herr]

/-- C9: the instant the running byte total of a stream exceeds the ceiling,
ingestion fails with `FILE_TOO_LARGE` regardless of every later chunk and of
the terminal event (no waiting for completion), and the upload pipelines
persist no record and just propagate that error; a graceful end with zero
bytes observed (Node emits no zero-length data chunks, so the chunk array is
then empty) fails with `VALIDATION_ERROR`; a transport-level stream error
fails with `UPLOAD_FAILED` carrying the underlying cause; the ceilings are
10 MiB for images and 50 MiB for documents. -/
theorem c9_stream_ingestion_contract :
    (∀ (limits : UploadLimits) (pre : List (List Nat)) (c : List Nat)
        (post : List (List Nat)) (term : StreamTerminal),
        limits.MAX_FILE_SIZE < (pre.map List.length).sum + c.length →
        processMultipartUpload limits { chunks := pre ++ c :: post, terminal := term } =
          Except.error { code := "FILE_TOO_LARGE", statusCode := 413 }) ∧
    (∀ (limits : UploadLimits) (chunks : List (List Nat)),
        (∀ ch ∈ chunks, ch ≠ []) → (chunks.map List.length).sum = 0 →
        processMultipartUpload limits { chunks := chunks, terminal := StreamTerminal.ended } =
          Except.error { code := "VALIDATION_ERROR", statusCode := 400 }) ∧
    (∀ (limits : UploadLimits) (chunks : List (List Nat)) (cause : Nat),
        (chunks.map List.length).sum ≤ limits.MAX_FILE_SIZE →
        processMultipartUpload limits
            { chunks := chunks, terminal := StreamTerminal.errored cause } =
          Except.error { code := "UPLOAD_FAILED", statusCode := 500
                         details := ErrDetails.streamCause cause }) ∧
    (∀ (st : PDFUploadStore) (inp : PDFUploadInput) (err : ServiceError),
        st.uploadInProgress = none →
        processMultipartUpload PDF_UPLOAD_LIMITS inp.stream = Except.error err →
        (pdfUploadProcess st inp).1.records = st.records ∧
        (pdfUploadProcess st inp).1.isolatedRecords = st.isolatedRecords ∧
        (pdfUploadProcess st inp).2 = Except.error err) ∧
    (∀ (st : FileUploadStore) (inp : FileUploadInput) (err : ServiceError),
        processMultipartUpload FILE_UPLOAD_LIMITS inp.stream = Except.error err →
        fileUploadProcess st inp = (st, Except.error err)) ∧
    FILE_UPLOAD_LIMITS.MAX_FILE_SIZE = 10 * 1024 * 1024 ∧
    PDF_UPLOAD_LIMITS.MAX_FILE_SIZE = 50 * 1024 * 1024 := by
  refine ⟨processMultipartUpload_exceeds, ?_, ?_, ?_, ?_, rfl, rfl⟩
  · intro limits chunks hne hsum
    have hnil : chunks = [] := by
      cases chunks with
      | nil => rfl
      | cons a rest =>
        have ha := hne a (by simp)
        simp at hsum
        exact absurd hsum.1 ha
    subst hnil
    rfl
  · intro limits chunks cause hsum
    unfold processMultipartUpload
    rw [accumulateChunks_ok limits.MAX_FILE_SIZE chunks 0 (by omega)]
  · exact fun _ _ _ hgate herr => pdfUploadProcess_ingest_error hgate herr
  · exact fun _ _ _ herr => fileUploadProcess_ingest_error herr

/-- The single oversize chunk (one byte over 50 MiB). -/
def oversizeChunk : List Nat := List.replicate (50 * 1024 * 1024 + 1) 0

theorem oversizeChunk_length : oversizeChunk.length = 50 * 1024 * 1024 + 1 := by
  simp only [oversizeChunk, List.length_replicate]

/-- An oversize single-chunk document stream. -/
def oversizePDFStream : ByteStream :=
  { chunks := [oversizeChunk], terminal := StreamTerminal.ended }

/-- Upload request carrying `oversizePDFStream`. -/
def oversizePDFInput : PDFUploadInput :=
  { stream := oversizePDFStream, fileNameHeader := none, uploadId := "id2"
    uploadedAt := "t", nowMs := 0, scanBehavior := ScanBehavior.completes }

theorem c9_stream_ingestion_contract_witness :
    processMultipartUpload PDF_UPLOAD_LIMITS oversizePDFStream =
      Except.error { code := "FILE_TOO_LARGE", statusCode := 413 } ∧
    processMultipartUpload FILE_UPLOAD_LIMITS { chunks := [], terminal := StreamTerminal.ended } =
      Except.error { code := "VALIDATION_ERROR", statusCode := 400 } ∧
    processMultipartUpload FILE_UPLOAD_LIMITS
        { chunks := [[7]], terminal := StreamTerminal.errored 3 } =
      Except.error { code := "UPLOAD_FAILED", statusCode := 500
                     details := ErrDetails.streamCause 3 } ∧
    (pdfUploadProcess initialPDFStore oversizePDFInput).2 =
      Except.error { code := "FILE_TOO_LARGE", statusCode := 413 } := by
  have hlen : PDF_UPLOAD_LIMITS.MAX_FILE_SIZE <
      (List.map List.length ([] : List (List Nat))).sum + oversizeChunk.length := by
    rw [oversizeChunk_length]
    norm_num [PDF_UPLOAD_LIMITS]
  have h1 : processMultipartUpload PDF_UPLOAD_LIMITS oversizePDFStream =
      Except.error { code := "FILE_TOO_LARGE", statusCode := 413 } :=
    c9_stream_ingestion_contract.1 PDF_UPLOAD_LIMITS [] oversizeChunk []
      StreamTerminal.ended hlen
  refine ⟨h1, ?_, ?_, ?_⟩
  · exact c9_stream_ingestion_contract.2.1 FILE_UPLOAD_LIMITS [] (by simp) rfl
  · exact c9_stream_ingestion_contract.2.2.1 FILE_UPLOAD_LIMITS [[7]] 3
      (by simp [FILE_UPLOAD_LIMITS])
  · exact (c9_stream_ingestion_contract.2.2.2.1 initialPDFStore oversizePDFInput _
      rfl h1).2.2

theorem pdfGetById_isSome (st : PDFUploadStore) (id : String) :
    (st.getById id).isSome = (mapHas st.records id || mapHas st.isolatedRecords id) := by
  have h1 := mapGet_isSome st.records id
  have h2 := mapGet_isSome st.isolatedRecords id
  unfold PDFUploadStore.getById
  cases hr : mapGet st.records id with
  | none =>
    rw [hr] at h1
    cases hi : mapGet st.isolatedRecords id with
    | none =>
      rw [hi] at h2
      simp [Option.orElse, hi, ← h1, ← h2]
    | some v =>
      rw [hi] at h2
      simp [Option.orElse, hi, ← h1, ← h2]
  | some v =>
    rw [hr] at h1
    simp [Option.orElse, ← h1]

theorem pdfUploadProcess_ok_response {st st' : PDFUploadStore} {inp : PDFUploadInput}
    {r : PDFUploadResponse} (h : pdfUploadProcess st inp = (st', Except.ok r)) :
    ∃ e, r = pdfEntityToResponse e := by
  simp only [pdfUploadProcess] at h
  split at h
  · have h2 := congrArg Prod.snd h
    simp at h2
  · split at h
    · rename_i st2 resp hok
      have h2 := congrArg Prod.snd h
      simp at h2
      obtain ⟨e, _, hresp, _⟩ := pdfUploadPipelineCore_ok hok
      exact ⟨e, by rw [← h2]; exact hresp⟩
    · have h2 := congrArg Prod.snd h
      simp at h2
    · have h2 := congrArg Prod.snd h
      simp at h2

theorem fileUploadProcess_ok_response {st st' : FileUploadStore} {inp : FileUploadInput}
    {r : FileUploadResponse} (h : fileUploadProcess st inp = (st', Except.ok r)) :
    ∃ e, r = fileEntityToResponse e := by
  simp only [fileUploadProcess] at h
  split at h
  · have h2 := congrArg Prod.snd h
    simp at h2
  rename_i buffer hbuf
  split at h
  · have h2 := congrArg Prod.snd h
    simp at h2
  split at h
  · have h2 := congrArg Prod.snd h
    simp at h2
  split at h
  · have h2 := congrArg Prod.snd h
    simp at h2
  rename_i dims hdims
  split at h
  · have h2 := congrArg Prod.snd h
    simp at h2
  · rename_i st2 hadd
    have h2 := congrArg Prod.snd h
    simp at h2
    exact ⟨mkFileEntity inp buffer dims, h2.symm⟩

/-- C8: responses never carry the stored raw buffer — the response projection
of an entity is invariant under replacing its `buffer` field (so nothing of
`rawBytes` is serialized), `get` returns exactly that projection of the entity
found in a partition, lookup succeeds precisely when the id is present in a
partition (where the buffer-owning record lives), and every successful upload
response is such a buffer-free projection. -/
theorem c8_raw_buffer_confinement :
    (∀ (e : PDFUploadEntity) (b : List Nat),
        pdfEntityToResponse { e with buffer := b } = pdfEntityToResponse e) ∧
    (∀ (e : FileUploadEntity) (b : List Nat),
        fileEntityToResponse { e with buffer := b } = fileEntityToResponse e) ∧
    (∀ (st : PDFUploadStore) (id : String),
        (st.getById id).isSome = (mapHas st.records id || mapHas st.isolatedRecords id)) ∧
    (∀ (st : FileUploadStore) (id : String),
        (st.getById id).isSome = mapHas st.records id) ∧
    (∀ (st : PDFUploadStore) (id : String) (e : PDFUploadEntity),
        isValidUUID id = true → st.getById id = some e →
        pdfUploadGet st id = Except.ok (pdfEntityToResponse e)) ∧
    (∀ (st : FileUploadStore) (id : String) (e : FileUploadEntity),
        isValidUUID id = true → st.getById id = some e →
        fileUploadGet st id = Except.ok (fileEntityToResponse e)) ∧
    (∀ (st st' : PDFUploadStore) (inp : PDFUploadInput) (r : PDFUploadResponse),
        pdfUploadProcess st inp = (st', Except.ok r) → ∃ e, r = pdfEntityToResponse e) ∧
    (∀ (st st' : FileUploadStore) (inp : FileUploadInput) (r : FileUploadResponse),
        fileUploadProcess st inp = (st', Except.ok r) → ∃ e, r = fileEntityToResponse e) := by
  refine ⟨fun e b => rfl, fun e b => rfl, pdfGetById_isSome,
    fun st id => mapGet_isSome st.records id, ?_, ?_, ?_, ?_⟩
  · intro st id e hid hget
    unfold pdfUploadGet
    rw [if_neg (by simp [hid]), hget]
  · intro st id e hid hget
    unfold fileUploadGet
    rw [if_neg (by simp [hid]), hget]
  · exact fun _ _ _ _ h => pdfUploadProcess_ok_response h
  · exact fun _ _ _ _ h => fileUploadProcess_ok_response h

/-- Id used by the C8 witness lookups. -/
def c8Id : String := "323e4567-e89b-42d3-a456-426614174000"

/-- PDF entity stored under `c8Id`. -/
def c8PDFEntity : PDFUploadEntity :=
  { id := c8Id, fileName := "d.pdf", fileSize := 3, fileSizeFormatted := "0.00 KB"
    mimeType := "application/pdf", buffer := [1, 2, 3], uploadedAt := "t"
    integrityValid := true, corruptionType := none, scanResult := ScanResult.limpo
    token := "tk", status := UploadStatus.concluido }

/-- PDF store holding `c8PDFEntity`. -/
def c8PDFStore : PDFUploadStore :=
  { records := [(c8Id, c8PDFEntity)], isolatedRecords := [], uploadInProgress := none }

/-- PNG entity stored under `c8Id`. -/
def c8FileEntity : FileUploadEntity :=
  { id := c8Id, fileName := "p.png", fileSize := 3, fileSizeFormatted := "0.00 KB"
    width := 1, height := 1, dimensions := "1 x 1", previewUrl := ""
    mimeType := "image/png", buffer := [1, 2, 3], uploadedAt := "t" }

/-- PNG store holding `c8FileEntity`. -/
def c8FileStore : FileUploadStore :=
  { records := [(c8Id, c8FileEntity)] }

/-- A buffer passing every PDF check of the pipeline. -/
def pdfOkBytes : List Nat := strBytes "%PDF-1.4 xref trailer startxref %%EOF 1 0 obj"

/-- Upload request carrying `pdfOkBytes`. -/
def pdfOkInput : PDFUploadInput :=
  { stream := { chunks := [pdfOkBytes], terminal := StreamTerminal.ended }
    fileNameHeader := some "doc.pdf", uploadId := "423e4567-e89b-42d3-a456-426614174000"
    uploadedAt := "t", nowMs := 0, scanBehavior := ScanBehavior.completes }

/-- A 25-byte buffer passing the PNG upload checks (signature plus IHDR
width/height fields). -/
def pngOkBytes : List Nat :=
  PNG_SIGNATURE ++ [0, 0, 0, 13, 73, 72, 68, 82, 0, 0, 0, 1, 0, 0, 0, 1, 8]

/-- Upload request carrying `pngOkBytes`. -/
def pngOkInput : FileUploadInput :=
  { stream := { chunks := [pngOkBytes], terminal := StreamTerminal.ended }
    fileNameHeader := some "img.png", newId := "523e4567-e89b-42d3-a456-426614174000"
    uploadedAt := "t" }

theorem c8_raw_buffer_confinement_witness :
    pdfUploadGet c8PDFStore c8Id = Except.ok (pdfEntityToResponse c8PDFEntity) ∧
    fileUploadGet c8FileStore c8Id = Except.ok (fileEntityToResponse c8FileEntity) ∧
    (∃ e, pdfEntityToResponse (mkPDFEntity pdfOkInput ([pdfOkBytes].flatten) ScanResult.limpo) =
        pdfEntityToResponse e) ∧
    (∃ e, fileEntityToResponse (mkFileEntity pngOkInput ([pngOkBytes].flatten) (1, 1)) =
        fileEntityToResponse e) := by
  refine ⟨?_, ?_, ?_, ?_⟩
  · exact c8_raw_buffer_confinement.2.2.2.2.1 c8PDFStore c8Id c8PDFEntity
      (by decide) (by decide)
  · exact c8_raw_buffer_confinement.2.2.2.2.2.1 c8FileStore c8Id c8FileEntity
      (by decide) (by decide)
  · exact c8_raw_buffer_confinement.2.2.2.2.2.2.1 initialPDFStore
      (pdfUploadProcess initialPDFStore pdfOkInput).1 pdfOkInput
      (pdfEntityToResponse (mkPDFEntity pdfOkInput ([pdfOkBytes].flatten) ScanResult.limpo))
      (by decide)
  · exact c8_raw_buffer_confinement.2.2.2.2.2.2.2 { records := [] }
      (fileUploadProcess { records := [] } pngOkInput).1 pngOkInput
      (fileEntityToResponse (mkFileEntity pngOkInput ([pngOkBytes].flatten) (1, 1)))
      (by decide)

theorem base64Encode_length (bs : List Nat) :
    (base64Encode bs).length = 4 * ((bs.length + 2) / 3) :=
  base64Groups_length bs

theorem convertToBase64_length (buffer : List Nat) (mime : String) :
    (convertToBase64 buffer mime).length =
      ("data:" ++ mime ++ ";base64,").length + 4 * ((buffer.length + 2) / 3) := by
  unfold convertToBase64
  rw [String.length_append, base64Encode_length]

/-- The exact size condition under which the 1% tolerance holds for a buffer
of size S with the 22-byte `data:image/png;base64,` prefix: the length
difference is 0 when S ≡ 0 (mod 3); it is 2 when S ≡ 1, needing
`expectedSize ≥ 200`, i.e. S ≥ 133; it is 1 when S ≡ 2, needing
`expectedSize ≥ 100`, i.e. S ≥ 59. -/
def withinTolerance (S : Nat) : Prop :=
  S % 3 = 0 ∨ (S % 3 = 1 ∧ 133 ≤ S) ∨ (S % 3 = 2 ∧ 59 ≤ S)

instance : DecidablePred withinTolerance := fun S => by
  unfold withinTolerance
  infer_instance

theorem integrity_iff (S : Nat) :
    (validateConversionIntegrity (22 + 4 * ((S + 2) / 3)) ((S * 4 + 2) / 3 + 22) = true) ↔
      withinTolerance S := by
  unfold validateConversionIntegrity withinTolerance
  rw [decide_eq_true_eq]
  simp only [Nat.dist]
  obtain ⟨q, r, hqr, hrlt⟩ : ∃ q r, S = 3 * q + r ∧ r < 3 :=
    ⟨S / 3, S % 3, by omega, by omega⟩
  subst hqr
  interval_cases r <;> omega

/-- C1 (amended): for every stored image record (buffer size S = fileSize,
mime `image/png`, so prefix length P = 22) whose buffer is long enough for
metadata extraction (at least 26 bytes), the conversion computes
`expectedSize = ceil(S*4/3) + P` and a base64 string of length
`P + 4*ceil(S/3)`; it succeeds with `integrityValid = true` exactly when
S ≡ 0 (mod 3), or S ≡ 1 (mod 3) and S ≥ 133, or S ≡ 2 (mod 3) and S ≥ 59,
and otherwise raises `INTEGRITY_ERROR` carrying both sizes and their
difference — so not every valid PNG is within the 1% tolerance (see the
counterexample, a genuine 73-byte PNG). -/
theorem c1_conversion_size_integrity (st : FileUploadStore)
    (fileId convertedAt : String) (e : FileUploadEntity)
    (hid : isValidUUID fileId = true)
    (hget : st.getById fileId = some e)
    (hmime : e.mimeType = "image/png")
    (hsize : e.fileSize = e.buffer.length)
    (hlen : 26 ≤ e.buffer.length) :
    (withinTolerance e.buffer.length →
      ∃ r : PNGConversionResponse,
        pngConversionProcess st fileId convertedAt = Except.ok r ∧
        r.expectedSize = (e.buffer.length * 4 + 2) / 3 + 22 ∧
        r.base64Size = 22 + 4 * ((e.buffer.length + 2) / 3) ∧
        r.integrityValid = true) ∧
    (¬ withinTolerance e.buffer.length →
      pngConversionProcess st fileId convertedAt =
        Except.error { code := "INTEGRITY_ERROR", statusCode := 500
                       details := ErrDetails.integrity
                         ((e.buffer.length * 4 + 2) / 3 + 22)
                         (22 + 4 * ((e.buffer.length + 2) / 3))
                         (Nat.dist (22 + 4 * ((e.buffer.length + 2) / 3))
                           ((e.buffer.length * 4 + 2) / 3 + 22)) }) := by
  obtain ⟨m, hm⟩ := extractPNGMetadata_isOk hlen
  have hplen : ("data:" ++ e.mimeType ++ ";base64,").length = 22 := by
    rw [hmime]
    decide
  have hblen : (convertToBase64 e.buffer e.mimeType).length =
      22 + 4 * ((e.buffer.length + 2) / 3) := by
    rw [convertToBase64_length, hplen]
  have hexp : calculateExpectedBase64Size e.fileSize
      ("data:" ++ e.mimeType ++ ";base64,").length =
      (e.buffer.length * 4 + 2) / 3 + 22 := by
    unfold calculateExpectedBase64Size
    rw [hplen, hsize]
  constructor
  · intro hcond
    have hintegrity : validateConversionIntegrity
        (convertToBase64 e.buffer e.mimeType).length
        (calculateExpectedBase64Size e.fileSize
          ("data:" ++ e.mimeType ++ ";base64,").length) = true := by
      rw [hblen, hexp]
      exact (integrity_iff e.buffer.length).mpr hcond
    simp only [pngConversionProcess, hid, Bool.not_true, Bool.false_eq_true, if_false,
      hget, hm, hintegrity]
    exact ⟨_, rfl, hexp, hblen, rfl⟩
  · intro hcond
    have hfalse : validateConversionIntegrity
        (convertToBase64 e.buffer e.mimeType).length
        (calculateExpectedBase64Size e.fileSize
          ("data:" ++ e.mimeType ++ ";base64,").length) = false := by
      rw [hblen, hexp]
      cases hval : validateConversionIntegrity (22 + 4 * ((e.buffer.length + 2) / 3))
          ((e.buffer.length * 4 + 2) / 3 + 22) with
      | false => rfl
      | true => exact absurd ((integrity_iff e.buffer.length).mp hval) hcond
    simp only [pngConversionProcess, hid, Bool.not_true, Bool.false_eq_true, if_false,
      hget, hm, hfalse, Bool.not_false, if_true]
    rw [hexp, hblen]

/-- A 27-byte buffer (PNG signature plus IHDR fields), size divisible by 3. -/
def c1WitnessBytes : List Nat :=
  PNG_SIGNATURE ++ [0, 0, 0, 13, 73, 72, 68, 82, 0, 0, 0, 1, 0, 0, 0, 1, 8, 6, 0]

/-- Id of the C1 witness record. -/
def c1WitnessId : String := "623e4567-e89b-42d3-a456-426614174000"

/-- Stored record holding `c1WitnessBytes`. -/
def c1WitnessEntity : FileUploadEntity :=
  { id := c1WitnessId, fileName := "w.png", fileSize := 27
    fileSizeFormatted := formatFileSize 27, width := 1, height := 1
    dimensions := "1 x 1", previewUrl := generatePreviewUrl c1WitnessBytes "image/png"
    mimeType := "image/png", buffer := c1WitnessBytes, uploadedAt := "t" }

/-- Store holding the C1 witness record. -/
def c1WitnessStore : FileUploadStore :=
  { records := [(c1WitnessId, c1WitnessEntity)] }

/-- A 28-byte buffer (28 ≡ 1 (mod 3), below 133, so outside tolerance). -/
def c1NarrowBytes : List Nat :=
  PNG_SIGNATURE ++ [0, 0, 0, 13, 73, 72, 68, 82, 0, 0, 0, 1, 0, 0, 0, 1, 8, 6, 0, 0]

/-- Id of the 28-byte record. -/
def c1NarrowId : String := "923e4567-e89b-42d3-a456-426614174000"

/-- Stored record holding `c1NarrowBytes`. -/
def c1NarrowEntity : FileUploadEntity :=
  { id := c1NarrowId, fileName := "n.png", fileSize := 28
    fileSizeFormatted := formatFileSize 28, width := 1, height := 1
    dimensions := "1 x 1", previewUrl := generatePreviewUrl c1NarrowBytes "image/png"
    mimeType := "image/png", buffer := c1NarrowBytes, uploadedAt := "t" }

/-- Store holding the 28-byte record. -/
def c1NarrowStore : FileUploadStore :=
  { records := [(c1NarrowId, c1NarrowEntity)] }

theorem c1_conversion_size_integrity_witness :
    (∃ r : PNGConversionResponse,
      pngConversionProcess c1WitnessStore c1WitnessId "t" = Except.ok r ∧
      r.expectedSize = (c1WitnessEntity.buffer.length * 4 + 2) / 3 + 22 ∧
      r.base64Size = 22 + 4 * ((c1WitnessEntity.buffer.length + 2) / 3) ∧
      r.integrityValid = true) ∧
    pngConversionProcess c1NarrowStore c1NarrowId "t" =
      Except.error { code := "INTEGRITY_ERROR", statusCode := 500
                     details := ErrDetails.integrity
                       ((c1NarrowEntity.buffer.length * 4 + 2) / 3 + 22)
                       (22 + 4 * ((c1NarrowEntity.buffer.length + 2) / 3))
                       (Nat.dist (22 + 4 * ((c1NarrowEntity.buffer.length + 2) / 3))
                         ((c1NarrowEntity.buffer.length * 4 + 2) / 3 + 22)) } :=
  ⟨(c1_conversion_size_integrity c1WitnessStore c1WitnessId "t" c1WitnessEntity
      (by decide) (by decide) (by decide) (by decide) (by decide)).1 (by decide),
   (c1_conversion_size_integrity c1NarrowStore c1NarrowId "t" c1NarrowEntity
      (by decide) (by decide) (by decide) (by decide) (by decide)).2 (by decide)⟩

/-- The bytes of a genuine, decodable 73-byte 1x1 RGBA PNG file (valid
signature, IHDR, IDAT with stored deflate block, IEND, all CRCs correct).
Its size satisfies 73 % 3 = 1, so the base64 length exceeds
`expectedSize = 120` by 2 while the 1% tolerance is only 1.2. -/
def png73 : List Nat :=
  [137, 80, 78, 71, 13, 10, 26, 10, 0, 0, 0, 13, 73, 72, 68, 82, 0, 0, 0, 1,
   0, 0, 0, 1, 8, 6, 0, 0, 0, 31, 21, 196, 137, 0, 0, 0, 16, 73, 68, 65, 84,
   120, 1, 1, 5, 0, 250, 255, 0, 0, 0, 0, 0, 0, 5, 0, 1, 100, 120, 149, 56,
   0, 0, 0, 0, 73, 69, 78, 68, 174, 66, 96, 130]

/-- Id of the C1 counterexample record. -/
def c1CounterId : String := "123e4567-e89b-42d3-a456-426614174000"

/-- Stored record holding the valid 73-byte PNG. -/
def c1CounterEntity : FileUploadEntity :=
  { id := c1CounterId, fileName := "pixel.png", fileSize := 73
    fileSizeFormatted := formatFileSize 73, width := 1, height := 1
    dimensions := "1 x 1", previewUrl := generatePreviewUrl png73 "image/png"
    mimeType := "image/png", buffer := png73, uploadedAt := "t" }

/-- Store holding the 73-byte PNG record. -/
def c1CounterStore : FileUploadStore :=
  { records := [(c1CounterId, c1CounterEntity)] }

set_option maxRecDepth 8192 in
theorem c1_conversion_size_integrity_counterexample :
    pngConversionProcess c1CounterStore c1CounterId "t" =
      Except.error { code := "INTEGRITY_ERROR", statusCode := 500
                     details := ErrDetails.integrity 120 122 2 } := by
  decide

/-- C7 (amended): an out-of-range read during metadata extraction is caught
inside `extractPNGMetadata` and rethrown as the `ServiceError`
`METADATA_EXTRACTION_FAILED` (500), which the conversion pipeline propagates
unchanged — `MEMORY_ERROR` is reserved for raw `RangeError`s escaping outside
that helper and is never produced on this path; the base64 step is wrapped so
that an encoding exception would map to `CONVERSION_FAILED` (the embedded
encoder is total, so that wrapper is dead code in the model). -/
theorem c7_short_buffer_metadata_error (st : FileUploadStore)
    (fileId convertedAt : String) (e : FileUploadEntity)
    (hid : isValidUUID fileId = true)
    (hget : st.getById fileId = some e)
    (hshort : e.buffer.length < 26) :
    pngConversionProcess st fileId convertedAt =
      Except.error { code := "METADATA_EXTRACTION_FAILED", statusCode := 500
                     details := ErrDetails.wrapped } := by
  simp only [pngConversionProcess, hid, Bool.not_true, Bool.false_eq_true, if_false, hget,
    extractPNGMetadata_short hshort]

/-- A 25-byte buffer: long enough for the upload pipeline's dimension reads
(offsets 16–23) and therefore storable, but too short for the conversion's
color-type read at offset 25. -/
def c7ShortBytes : List Nat :=
  PNG_SIGNATURE ++ [0, 0, 0, 13, 73, 72, 68, 82, 0, 0, 0, 1, 0, 0, 0, 1, 8]

/-- Id of the C7 record. -/
def c7Id : String := "223e4567-e89b-42d3-a456-426614174000"

/-- Stored record holding the 25-byte buffer. -/
def c7Entity : FileUploadEntity :=
  { id := c7Id, fileName := "s.png", fileSize := 25
    fileSizeFormatted := formatFileSize 25, width := 1, height := 1
    dimensions := "1 x 1", previewUrl := generatePreviewUrl c7ShortBytes "image/png"
    mimeType := "image/png", buffer := c7ShortBytes, uploadedAt := "t" }

/-- Store holding the 25-byte record. -/
def c7Store : FileUploadStore :=
  { records := [(c7Id, c7Entity)] }

theorem c7_short_buffer_metadata_error_witness :
    pngConversionProcess c7Store c7Id "t" =
      Except.error { code := "METADATA_EXTRACTION_FAILED", statusCode := 500
                     details := ErrDetails.wrapped } :=
  c7_short_buffer_metadata_error c7Store c7Id "t" c7Entity (by decide) (by decide) (by decide)

set_option maxRecDepth 8192 in
theorem c7_short_buffer_metadata_error_counterexample :
    pngConversionProcess c7Store c7Id "t" ≠
      Except.error { code := "MEMORY_ERROR", statusCode := 500
                     details := ErrDetails.wrapped } ∧
    pngConversionProcess c7Store c7Id "t" ≠
      Except.error { code := "MEMORY_ERROR", statusCode := 500 } := by
  decide

/-- Upload whose scan race times out, driving the record into quarantine. -/
def quarantineInput : PDFUploadInput :=
  { stream := { chunks := [pdfOkBytes], terminal := StreamTerminal.ended }
    fileNameHeader := none, uploadId := "723e4567-e89b-42d3-a456-426614174000"
    uploadedAt := "t", nowMs := 0, scanBehavior := ScanBehavior.timesOut }

set_option maxRecDepth 8192 in
theorem c2_quarantine_iff_scan_unavailable_witness :
    ("723e4567-e89b-42d3-a456-426614174000",
      mkPDFEntity quarantineInput ([pdfOkBytes].flatten) ScanResult.erroScan).2.scanResult =
      ScanResult.erroScan :=
  (c2_quarantine_iff_scan_unavailable [PDFOp.upload quarantineInput]).1
    ("723e4567-e89b-42d3-a456-426614174000",
      mkPDFEntity quarantineInput ([pdfOkBytes].flatten) ScanResult.erroScan)
    (by decide)

/-- Upload whose scan completes clean, stored in the primary partition. -/
def cleanInput : PDFUploadInput :=
  { stream := { chunks := [pdfOkBytes], terminal := StreamTerminal.ended }
    fileNameHeader := none, uploadId := "823e4567-e89b-42d3-a456-426614174000"
    uploadedAt := "t", nowMs := 0, scanBehavior := ScanBehavior.completes }

set_option maxRecDepth 8192 in
theorem c10_stored_records_validated_witness :
    ("823e4567-e89b-42d3-a456-426614174000",
        mkPDFEntity cleanInput ([pdfOkBytes].flatten) ScanResult.limpo).2.integrityValid = true ∧
    ("823e4567-e89b-42d3-a456-426614174000",
        mkPDFEntity cleanInput ([pdfOkBytes].flatten) ScanResult.limpo).2.corruptionType = none ∧
    ("823e4567-e89b-42d3-a456-426614174000",
        mkPDFEntity cleanInput ([pdfOkBytes].flatten) ScanResult.limpo).2.status =
      UploadStatus.concluido ∧
    (("823e4567-e89b-42d3-a456-426614174000",
        mkPDFEntity cleanInput ([pdfOkBytes].flatten) ScanResult.limpo).2.scanResult =
        ScanResult.limpo ∨
     ("823e4567-e89b-42d3-a456-426614174000",
        mkPDFEntity cleanInput ([pdfOkBytes].flatten) ScanResult.limpo).2.scanResult =
        ScanResult.erroScan) :=
  c10_stored_records_validated [PDFOp.upload cleanInput]
    ("823e4567-e89b-42d3-a456-426614174000",
      mkPDFEntity cleanInput ([pdfOkBytes].flatten) ScanResult.limpo)
    (by decide)
